import Mathlib

/-!
Verification development for the excel-estimation-tool backend.

The definitions below are a shallow embedding of the Python sources:
  * `backend/app/models.py`           (data model)
  * `backend/app/services/data_service.py`   (static role/module catalog)
  * `backend/app/services/calculation_service.py` (estimation pipeline)
  * `backend/app/services/proposal_store_service.py` (in-memory store)
  * `backend/app/services/report_job_service.py`
  * `backend/app/services/ai_service.py` (narrative fallback)
  * `backend/app/main.py` (SAM sync quota logic, estimate handler)

Machine floats are modelled by exact rationals (`ℚ`); Python exceptions by
`Except PyExc`; Python dicts by association lists in insertion order.
-/

namespace EstTool

/-- Python exception kinds that the embedded code can raise. -/
inductive PyExc where
  | attributeError
  | zeroDivisionError
  | typeError
  | keyError
  | runtimeError
  deriving DecidableEq, Repr

/-- `d.get(k, default)` on a Python dict modelled as an association list. -/
def lookupD {α : Type} (l : List (String × α)) (k : String) (d : α) : α :=
  match l.find? (fun p => p.1 == k) with
  | some p => p.2
  | none => d

/-- Python `int(x or 1)`-style coalescing on integers: `0` is falsy. -/
def pyOrInt (n : ℤ) (d : ℤ) : ℤ :=
  if n = 0 then d else n

/-- Python `a or b` on optional numbers: `None` and `0` both fall through. -/
def pyOrNum (a b : Option ℚ) : Option ℚ :=
  match a with
  | some x => if x = 0 then b else some x
  | none => b

/-- Python `a or b` on optional strings: `None` and `""` both fall through. -/
def pyOrStr (a b : Option String) : Option String :=
  match a with
  | some s => if s = "" then b else some s
  | none => b

/-- Round-half-to-even to an integer, the semantics of Python `round`. -/
def roundHalfEven (q : ℚ) : ℤ :=
  let f := ⌊q⌋
  let r := q - (f : ℚ)
  if r < 1/2 then f
  else if 1/2 < r then f + 1
  else if f % 2 = 0 then f else f + 1

/-- Python `round(x, 1)`: round to one decimal place, ties to even. -/
def round1 (q : ℚ) : ℚ :=
  (roundHalfEven (10 * q) : ℚ) / 10

/-! ## Data model (`backend/app/models.py`) -/

/-- `ComplexityLevel(str, Enum)`: S / M / L / XL. -/
inductive ComplexityLevel where
  | small
  | medium
  | large
  | extraLarge
  deriving DecidableEq, Repr

/-- `FocusArea(str, Enum)`: DT / ITM / SA / CM / DA. -/
inductive FocusArea where
  | digitalTransformation
  | itModernization
  | securityAssurance
  | cloudMigration
  | dataAnalytics
  deriving DecidableEq, Repr

/-- The `.value` string of a `FocusArea` member. -/
def FocusArea.value : FocusArea → String
  | .digitalTransformation => "DT"
  | .itModernization => "ITM"
  | .securityAssurance => "SA"
  | .cloudMigration => "CM"
  | .dataAnalytics => "DA"

/-- Default `Role.clearance_multiplier` table. -/
def defaultClearanceMultiplier : List (String × ℚ) :=
  [("none", 1), ("public_trust", 1.1), ("secret", 1.3), ("top_secret", 1.6)]

/-- Default `Role.geography_multiplier` table. -/
def defaultGeographyMultiplier : List (String × ℚ) :=
  [("dc_metro", 1.2), ("major_city", 1.1), ("standard", 1.0), ("rural", 0.9)]

/-- `@dataclass Role`. -/
structure Role where
  id : String
  name : String
  base_hourly_rate : ℚ
  clearance_multiplier : List (String × ℚ) := defaultClearanceMultiplier
  geography_multiplier : List (String × ℚ) := defaultGeographyMultiplier
  deriving DecidableEq, Repr

/-- `@dataclass Module` (named `CatModule` because `Module` is taken in Lean). -/
structure CatModule where
  id : String
  name : String
  focus_area : FocusArea
  base_hours_by_role : List (String × ℚ)
  prerequisites : List String := []
  risk_factor : ℚ := 1
  deriving DecidableEq, Repr

/-- `ComplexityMatrix.base_multiplier` (total over the enum). -/
def complexityBaseMultiplier : ComplexityLevel → ℚ
  | .small => 0.7
  | .medium => 1.0
  | .large => 1.6
  | .extraLarge => 2.3

/-- `ComplexityMatrix.environment_factor`. -/
def environmentFactor : List (String × ℚ) :=
  [("development", 1.0), ("staging", 1.2), ("production", 1.5), ("classified", 2.0)]

/-- `ComplexityMatrix.integration_complexity`. -/
def integrationComplexity : List (String × ℚ) :=
  [("standalone", 1.0), ("light_integration", 1.2),
   ("moderate_integration", 1.5), ("heavy_integration", 2.0)]

/-- `@dataclass EstimationRules` with its default field values. -/
structure EstimationRules where
  min_project_hours : ℚ := 40.0
  max_single_module_hours : ℚ := 2000.0
  utilization_rate : ℚ := 0.85
  risk_reserve_percentage : ℚ := 0.15
  overhead_multiplier : ℚ := 1.2
  prime_contractor_margin : ℚ := 0.15
  deriving DecidableEq, Repr

/-- The rules instance the service uses: `self.rules = EstimationRules()`. -/
def rules0 : EstimationRules := {}

/-- One `{description, price}` item of `odc_items` / `fixed_price_items`. -/
structure CostItem where
  description : String := ""
  price : ℚ := 0
  deriving DecidableEq, Repr

/-- One entry of `historical_estimates` (numeric fields kept optional,
mirroring `item.get(...)` returning `None` when absent). -/
structure HistoricalEntry where
  selected : Bool := true
  name : Option String := none
  title : Option String := none
  id : Option String := none
  actual_hours : Option ℚ := none
  total_hours : Option ℚ := none
  actual_total_cost : Option ℚ := none
  total_cost : Option ℚ := none
  effective_rate : Option ℚ := none
  deriving DecidableEq, Repr

/-- The estimation input as the calculation code reads it (the duck-typed
object built by the API handlers; the declared-dataclass field list is
modelled separately for the field-mismatch claim). -/
structure EstimationInput where
  modules : List String
  complexity : ComplexityLevel
  environment : String := "production"
  integration_level : String := "moderate_integration"
  geography : String := "dc_metro"
  clearance_level : String := "secret"
  is_prime_contractor : Bool := true
  custom_role_overrides : List (String × ℚ) := []
  sites : ℤ := 1
  overtime : Bool := false
  odc_items : List CostItem := []
  fixed_price_items : List CostItem := []
  hardware_subtotal : ℚ := 0
  warranty_cost : ℚ := 0
  estimating_method : Option String := none
  historical_estimates : List HistoricalEntry := []
  deriving DecidableEq, Repr

/-! ## Static catalog (`backend/app/services/data_service.py`) -/

/-- `DataService._initialize_roles()`, in insertion order. -/
def allRoles : List Role :=
  [ { id := "solution_architect", name := "Solution Architect", base_hourly_rate := 175.0 },
    { id := "technical_lead", name := "Technical Lead", base_hourly_rate := 150.0 },
    { id := "senior_engineer", name := "Senior Engineer", base_hourly_rate := 135.0 },
    { id := "engineer", name := "Engineer", base_hourly_rate := 110.0 },
    { id := "junior_engineer", name := "Junior Engineer", base_hourly_rate := 85.0 },
    { id := "project_manager", name := "Project Manager", base_hourly_rate := 140.0 },
    { id := "business_analyst", name := "Business Analyst", base_hourly_rate := 125.0 },
    { id := "security_specialist", name := "Security Specialist", base_hourly_rate := 160.0 },
    { id := "data_engineer", name := "Data Engineer", base_hourly_rate := 145.0 },
    { id := "cloud_architect", name := "Cloud Architect", base_hourly_rate := 165.0 } ]

/-- `DataService._initialize_modules()`, in insertion order. -/
def allModules : List CatModule :=
  [ { id := "dt_discovery", name := "Discovery & Current State Mapping",
      focus_area := .digitalTransformation,
      base_hours_by_role :=
        [("solution_architect", 40), ("business_analyst", 80),
         ("senior_engineer", 60), ("project_manager", 30)] },
    { id := "dt_strategy", name := "Digital Strategy Development",
      focus_area := .digitalTransformation,
      base_hours_by_role :=
        [("solution_architect", 60), ("business_analyst", 100), ("project_manager", 40)],
      prerequisites := ["dt_discovery"] },
    { id := "itm_assessment", name := "Legacy System Assessment",
      focus_area := .itModernization,
      base_hours_by_role :=
        [("solution_architect", 50), ("technical_lead", 80),
         ("senior_engineer", 120), ("security_specialist", 40)] },
    { id := "itm_network_refresh", name := "Network Core Refresh",
      focus_area := .itModernization,
      base_hours_by_role :=
        [("technical_lead", 100), ("senior_engineer", 200),
         ("engineer", 150), ("project_manager", 50)] },
    { id := "itm_server_migration", name := "Server Infrastructure Migration",
      focus_area := .itModernization,
      base_hours_by_role :=
        [("solution_architect", 60), ("technical_lead", 80), ("senior_engineer", 160),
         ("engineer", 200), ("project_manager", 60)] },
    { id := "sa_audit", name := "Security Audit & Assessment",
      focus_area := .securityAssurance,
      base_hours_by_role :=
        [("security_specialist", 120), ("senior_engineer", 80), ("business_analyst", 40)] },
    { id := "sa_compliance", name := "Compliance Framework Implementation",
      focus_area := .securityAssurance,
      base_hours_by_role :=
        [("security_specialist", 160), ("solution_architect", 40),
         ("business_analyst", 80), ("project_manager", 60)],
      prerequisites := ["sa_audit"] },
    { id := "sa_license_audit", name := "License Audit & Rightsizing",
      focus_area := .securityAssurance,
      base_hours_by_role :=
        [("business_analyst", 60), ("senior_engineer", 40), ("project_manager", 20)] },
    { id := "cm_assessment", name := "Cloud Readiness Assessment",
      focus_area := .cloudMigration,
      base_hours_by_role :=
        [("cloud_architect", 80), ("solution_architect", 40),
         ("security_specialist", 60), ("business_analyst", 40)] },
    { id := "cm_migration_plan", name := "Cloud Migration Planning",
      focus_area := .cloudMigration,
      base_hours_by_role :=
        [("cloud_architect", 100), ("solution_architect", 60), ("project_manager", 80)],
      prerequisites := ["cm_assessment"] },
    { id := "cm_workload_migration", name := "Workload Migration Execution",
      focus_area := .cloudMigration,
      base_hours_by_role :=
        [("cloud_architect", 60), ("technical_lead", 100), ("senior_engineer", 200),
         ("engineer", 240), ("project_manager", 80)],
      prerequisites := ["cm_migration_plan"] },
    { id := "da_discovery", name := "Data Landscape Discovery",
      focus_area := .dataAnalytics,
      base_hours_by_role :=
        [("data_engineer", 80), ("business_analyst", 100), ("solution_architect", 40)] },
    { id := "da_pipeline", name := "Data Pipeline Development",
      focus_area := .dataAnalytics,
      base_hours_by_role :=
        [("data_engineer", 160), ("senior_engineer", 120),
         ("engineer", 100), ("project_manager", 40)],
      prerequisites := ["da_discovery"] } ]

/-- `DataService.get_module`: dict lookup by module id. -/
def getModule (module_id : String) : Option CatModule :=
  allModules.find? (fun m => m.id == module_id)

/-- `DataService.get_role`. -/
def getRole (role_id : String) : Option Role :=
  allRoles.find? (fun r => r.id == role_id)

/-! ## Calculation service (`backend/app/services/calculation_service.py`) -/

/-- `max(1, int(input_data.sites or 1))`. -/
def sitesCount (input : EstimationInput) : ℤ :=
  max 1 (pyOrInt input.sites 1)

/-- `_get_complexity_multiplier`: base x environment x integration x sites. -/
def complexityMultiplier (input : EstimationInput) : ℚ :=
  let base_multiplier := complexityBaseMultiplier input.complexity
  let env_multiplier := lookupD environmentFactor input.environment 1.0
  let integration_multiplier := lookupD integrationComplexity input.integration_level 1.0
  let sites_multiplier := 1.0 + 0.15 * ((sitesCount input : ℚ) - 1)
  base_multiplier * env_multiplier * integration_multiplier * sites_multiplier

/-- `_calculate_role_hours`: hours of one role across the selected modules. -/
def calcRoleHours (role : Role) (modules : List CatModule) (input : EstimationInput) : ℚ :=
  (modules.map (fun m =>
    let base_hours := lookupD m.base_hours_by_role role.id 0
    if 0 < base_hours then
      base_hours * complexityMultiplier input * lookupD input.custom_role_overrides role.id 1.0
    else 0)).sum

/-- `_calculate_module_hours`: hours of one module across all its roles. -/
def calcModuleHours (m : CatModule) (input : EstimationInput) : ℚ :=
  (m.base_hours_by_role.map (fun p =>
    p.2 * complexityMultiplier input * lookupD input.custom_role_overrides p.1 1.0)).sum

/-- `_calculate_effective_rate`: base rate x geography x clearance x overtime. -/
def calcEffectiveRate (role : Role) (input : EstimationInput) : ℚ :=
  let geo_multiplier := lookupD role.geography_multiplier input.geography 1.0
  let clearance_multiplier := lookupD role.clearance_multiplier input.clearance_level 1.0
  let overtime_multiplier : ℚ := if input.overtime then 1.2 else 1.0
  role.base_hourly_rate * geo_multiplier * clearance_multiplier * overtime_multiplier

/-- Result record of `_compute_historical_adjustment`. -/
structure HistAdjustment where
  hours_multiplier : ℚ
  rate_multiplier : ℚ
  avg_hours : ℚ
  avg_rate : Option ℚ
  count : ℕ
  names : List String
  deriving DecidableEq, Repr

/-- `str.lower()` (character-wise, as for the ASCII method names used here). -/
def pyLower (s : String) : String :=
  String.mk (s.toList.map Char.toLower)

/-- `(input_data.estimating_method or "").lower()`. -/
def estimatingMethodLower (input : EstimationInput) : String :=
  pyLower (input.estimating_method.getD "")

/-- The `name or title or id or f"Historical Win {idx}"` fallback chain. -/
def histName (e : HistoricalEntry) (idx : ℕ) : String :=
  match pyOrStr (pyOrStr e.name e.title) e.id with
  | some s => if s == "" then "Historical Win " ++ toString idx else s
  | none => "Historical Win " ++ toString idx

/-- The effective rate recorded for one historical entry with positive hours
`h`: the explicit `effective_rate` when positive, else `total_cost / h` when
the total cost is positive, else nothing. -/
def histRate (e : HistoricalEntry) (h : ℚ) : Option ℚ :=
  let total_cost := pyOrNum e.actual_total_cost e.total_cost
  match e.effective_rate with
  | some r => if 0 < r then some r
      else match total_cost with
        | some c => if 0 < c then some (c / h) else none
        | none => none
  | none => match total_cost with
      | some c => if 0 < c then some (c / h) else none
      | none => none

/-- The loop of `_compute_historical_adjustment` collecting
`(hour_values, rate_values, names)` from the selected entries, with `idx`
enumerating from 1. -/
def collectHist : List HistoricalEntry → ℕ → List ℚ × List ℚ × List String
  | [], _ => ([], [], [])
  | e :: rest, idx =>
    let tail := collectHist rest (idx + 1)
    match pyOrNum e.actual_hours e.total_hours with
    | some h =>
      if 0 < h then
        let rates := match histRate e h with
          | some r => r :: tail.2.1
          | none => tail.2.1
        (h :: tail.1, rates, histName e idx :: tail.2.2)
      else tail
    | none => tail

/-- The selected historical entries: `[h for h in historicals if h.get("selected", True)]`. -/
def selectedHistoricals (input : EstimationInput) : List HistoricalEntry :=
  input.historical_estimates.filter (·.selected)

/-- `_compute_historical_adjustment`. -/
def computeHistoricalAdjustment (input : EstimationInput)
    (base_total_hours base_effective_rate : ℚ) : Option HistAdjustment :=
  if estimatingMethodLower input ≠ "historical" then none
  else
    let selected := selectedHistoricals input
    if selected.isEmpty then none
    else
      let collected := collectHist selected 1
      let hour_values := collected.1
      let rate_values := collected.2.1
      let names := collected.2.2
      if hour_values.isEmpty ∨ base_total_hours ≤ 0 then none
      else
        let avg_hours := hour_values.sum / (hour_values.length : ℚ)
        let hours_multiplier :=
          if 0 < base_total_hours then avg_hours / base_total_hours else 1.0
        if rate_values.isEmpty = false ∧ 0 < base_effective_rate then
          let avg_rate := rate_values.sum / (rate_values.length : ℚ)
          some { hours_multiplier := hours_multiplier,
                 rate_multiplier := avg_rate / base_effective_rate,
                 avg_hours := avg_hours, avg_rate := some avg_rate,
                 count := hour_values.length, names := names }
        else
          some { hours_multiplier := hours_multiplier, rate_multiplier := 1.0,
                 avg_hours := avg_hours, avg_rate := none,
                 count := hour_values.length, names := names }

/-- One entry of `breakdown_by_role`. -/
structure RoleEntry where
  role_id : String
  role_name : String
  hours : ℚ
  effective_rate : ℚ
  cost : ℚ
  deriving DecidableEq, Repr

/-- One entry of `breakdown_by_module`. -/
structure ModuleEntry where
  module_id : String
  module_name : String
  focus_area : String
  hours : ℚ
  cost : ℚ
  deriving DecidableEq, Repr

/-- `EstimationResult` (the `additional_costs` dict is flattened). -/
structure EstimationResult where
  total_labor_hours : ℚ
  total_labor_cost : ℚ
  risk_reserve : ℚ
  overhead_cost : ℚ
  total_cost : ℚ
  breakdown_by_module : List ModuleEntry
  breakdown_by_role : List RoleEntry
  effective_hourly_rate : ℚ
  odc_total : ℚ
  fixed_price_total : ℚ
  hardware_subtotal : ℚ
  warranty_cost : ℚ
  sites : ℤ
  overtime : Bool
  deriving DecidableEq, Repr

/-- The role-breakdown loop of `calculate_estimate` (before any historical
rescaling): roles iterated in catalog order, kept when their hours are
positive. -/
def roleBreakdownBase (modules : List CatModule) (input : EstimationInput) : List RoleEntry :=
  allRoles.filterMap (fun role =>
    let role_hours := calcRoleHours role modules input
    if 0 < role_hours then
      let effective_rate := calcEffectiveRate role input
      some { role_id := role.id, role_name := role.name, hours := role_hours,
             effective_rate := effective_rate, cost := role_hours * effective_rate }
    else none)

/-- The historical rescaling of one role entry: hours rounded to one decimal,
rate scaled, cost recomputed from the rounded hours. -/
def scaleRoleEntry (adj : HistAdjustment) (e : RoleEntry) : RoleEntry :=
  let scaled_hours := round1 (e.hours * adj.hours_multiplier)
  let scaled_rate := e.effective_rate * adj.rate_multiplier
  { e with hours := scaled_hours, effective_rate := scaled_rate,
           cost := scaled_hours * scaled_rate }

/-- `sum(role_breakdown.get(role_id, {}).get("cost", 0) for role_id in
module.base_hours_by_role.keys() if role_id in role_breakdown)`. -/
def moduleCost (breakdown : List RoleEntry) (m : CatModule) : ℚ :=
  (m.base_hours_by_role.map (fun p =>
    match breakdown.find? (fun e => e.role_id == p.1) with
    | some e => e.cost
    | none => 0)).sum

/-- Lines 90-114 of `calculate_estimate`: the management-reserve back-solve
and the prime-contractor margin, returning `(risk_reserve, total_cost)` from
the pre-reserve subtotal `S`.  The non-prime division by `1 - target` is
unguarded in the source and raises `ZeroDivisionError` when the target is 1. -/
def computeReserveTotal (S : ℚ) (is_prime : Bool) : Except PyExc (ℚ × ℚ) :=
  let target_mr_pct := rules0.risk_reserve_percentage
  let margin_rate := if is_prime then rules0.prime_contractor_margin else 0
  let riskE : Except PyExc ℚ :=
    if 0 < target_mr_pct then
      if 0 < margin_rate then
        let denom := 1 - target_mr_pct * (1 + margin_rate)
        .ok (if 0 < denom then target_mr_pct * (1 + margin_rate) * S / denom else 0)
      else
        if (1 : ℚ) - target_mr_pct = 0 then .error PyExc.zeroDivisionError
        else .ok (target_mr_pct * S / (1 - target_mr_pct))
    else .ok 0
  match riskE with
  | .error e => .error e
  | .ok risk_reserve =>
    let subtotal := S + risk_reserve
    let total_cost := if is_prime then subtotal + subtotal * margin_rate else subtotal
    .ok (risk_reserve, total_cost)

/-- `modules = [self.data_service.get_module(mid) for mid in input_data.modules]`
contains a `None`. -/
def anyUnknownModule (input : EstimationInput) : Bool :=
  (input.modules.map getModule).any (fun o => o.isNone)

/-- The successfully resolved module list. -/
def resolvedModules (input : EstimationInput) : List CatModule :=
  (input.modules.map getModule).reduceOption

/-- The unscaled `role_breakdown` built by `calculate_estimate`. -/
def baseBreakdown (input : EstimationInput) : List RoleEntry :=
  roleBreakdownBase (resolvedModules input) input

/-- `total_labor_hours` before historical rescaling. -/
def baseHoursTotal (input : EstimationInput) : ℚ :=
  ((baseBreakdown input).map (·.hours)).sum

/-- `total_labor_cost` before historical rescaling. -/
def baseCostTotal (input : EstimationInput) : ℚ :=
  ((baseBreakdown input).map (·.cost)).sum

/-- `base_effective_rate = total_labor_cost / total_labor_hours if ... else 0`. -/
def baseEffectiveRate (input : EstimationInput) : ℚ :=
  if 0 < baseHoursTotal input then baseCostTotal input / baseHoursTotal input else 0

/-- The `historical_adjustment` computed inside `calculate_estimate`. -/
def histOf (input : EstimationInput) : Option HistAdjustment :=
  computeHistoricalAdjustment input (baseHoursTotal input) (baseEffectiveRate input)

/-- `role_breakdown` after the optional historical rescaling. -/
def finalBreakdown (input : EstimationInput) : List RoleEntry :=
  match histOf input with
  | some adj => (baseBreakdown input).map (scaleRoleEntry adj)
  | none => baseBreakdown input

/-- The `hours_multiplier` in effect (1.0 when no adjustment). -/
def hoursMultiplierOf (input : EstimationInput) : ℚ :=
  match histOf input with
  | some adj => adj.hours_multiplier
  | none => 1.0

/-- Final `total_labor_hours`. -/
def totalLaborHours (input : EstimationInput) : ℚ :=
  ((finalBreakdown input).map (·.hours)).sum

/-- Final `total_labor_cost`. -/
def totalLaborCost (input : EstimationInput) : ℚ :=
  ((finalBreakdown input).map (·.cost)).sum

/-- `module_breakdown`. -/
def moduleBreakdownOf (input : EstimationInput) : List ModuleEntry :=
  (resolvedModules input).map (fun m =>
    { module_id := m.id, module_name := m.name, focus_area := m.focus_area.value,
      hours := calcModuleHours m input * hoursMultiplierOf input,
      cost := moduleCost (finalBreakdown input) m })

/-- `overhead_cost = total_labor_cost * (self.rules.overhead_multiplier - 1)`. -/
def overheadCost (input : EstimationInput) : ℚ :=
  totalLaborCost input * (rules0.overhead_multiplier - 1)

/-- `odc_total`. -/
def odcTotal (input : EstimationInput) : ℚ :=
  (input.odc_items.map (·.price)).sum

/-- `fixed_price_total`. -/
def fixedPriceTotal (input : EstimationInput) : ℚ :=
  (input.fixed_price_items.map (·.price)).sum

/-- `subtotal_without_risk`. -/
def subtotalWithoutRisk (input : EstimationInput) : ℚ :=
  totalLaborCost input + overheadCost input + odcTotal input + fixedPriceTotal input
    + input.hardware_subtotal + input.warranty_cost

/-- The `EstimationResult` record returned on the success path, given the
`(risk_reserve, total_cost)` pair of the reserve back-solve. -/
def mkEstimationResult (input : EstimationInput) (rt : ℚ × ℚ) : EstimationResult :=
  { total_labor_hours := totalLaborHours input,
    total_labor_cost := totalLaborCost input,
    risk_reserve := rt.1,
    overhead_cost := overheadCost input,
    total_cost := rt.2,
    breakdown_by_module := moduleBreakdownOf input,
    breakdown_by_role := finalBreakdown input,
    effective_hourly_rate :=
      if 0 < totalLaborHours input then rt.2 / totalLaborHours input else 0,
    odc_total := odcTotal input,
    fixed_price_total := fixedPriceTotal input,
    hardware_subtotal := input.hardware_subtotal,
    warranty_cost := input.warranty_cost,
    sites := input.sites,
    overtime := input.overtime }

/-- `calculate_estimate`.  An unknown module id puts `None` in the module
list and the first role-hours loop then dereferences
`None.base_hours_by_role`, raising `AttributeError`. -/
def calculateEstimate (input : EstimationInput) : Except PyExc EstimationResult :=
  if anyUnknownModule input then .error PyExc.attributeError
  else
    match computeReserveTotal (subtotalWithoutRisk input) input.is_prime_contractor with
    | .error e => .error e
    | .ok rt => .ok (mkEstimationResult input rt)

/-- `validate_estimate`: warnings only, never an exception. -/
def validateEstimate (input : EstimationInput) : List String :=
  let unknown := input.modules.filterMap (fun mid =>
    if (getModule mid).isNone then some ("Module " ++ mid ++ " not found") else none)
  let selected_modules := input.modules.filterMap getModule
  let prereq := selected_modules.flatMap (fun m =>
    m.prerequisites.filterMap (fun p =>
      if input.modules.contains p then none
      else
        let prereq_name := match getModule p with
          | some pm => pm.name
          | none => p
        some ("Module \x27" ++ m.name ++ "\x27 requires prerequisite \x27"
          ++ prereq_name ++ "\x27")))
  let size := if 10 < input.modules.length ∧ input.complexity = ComplexityLevel.small
    then ["Small complexity with many modules may be unrealistic"] else []
  unknown ++ prereq ++ size

/-- The `/api/v1/estimate` handler body after input construction: collect
validation warnings, then unconditionally run the calculation. -/
def estimateHandler (input : EstimationInput) :
    Except PyExc (List String × EstimationResult) :=
  let warnings := validateEstimate input
  match calculateEstimate input with
  | .error e => .error e
  | .ok result => .ok (warnings, result)

/-! ## Spec-side reformulations of the historical-adjustment collection -/

/-- The positive hour values collected from a list of historical entries. -/
def histHourValues (l : List HistoricalEntry) : List ℚ :=
  l.filterMap (fun e =>
    match pyOrNum e.actual_hours e.total_hours with
    | some h => if 0 < h then some h else none
    | none => none)

/-- The effective-rate values collected from a list of historical entries. -/
def histRateValues (l : List HistoricalEntry) : List ℚ :=
  l.filterMap (fun e =>
    match pyOrNum e.actual_hours e.total_hours with
    | some h => if 0 < h then histRate e h else none
    | none => none)

/-- The names collected from a list of historical entries (index from `idx`). -/
def histNames : List HistoricalEntry → ℕ → List String
  | [], _ => []
  | e :: rest, idx =>
    match pyOrNum e.actual_hours e.total_hours with
    | some h => if 0 < h then histName e idx :: histNames rest (idx + 1)
        else histNames rest (idx + 1)
    | none => histNames rest (idx + 1)

/-- A sample historical-method input: one selected win of 100 hours at an
explicit rate of 150. -/
def historicalSampleInput : EstimationInput :=
  { modules := [], complexity := .medium,
    estimating_method := some "historical",
    historical_estimates :=
      [({ actual_hours := some 100, effective_rate := some 150 } : HistoricalEntry)] }

/-! ## Declared-dataclass field model (`models.py` vs the API handler)

Python dataclass semantics: reading an attribute that is not a declared
field raises `AttributeError`; calling the generated `__init__` with a
keyword argument that is not a declared field raises `TypeError`. -/

/-- The fields of `@dataclass EstimationInput` exactly as declared in
`backend/app/models.py` lines 77-106, in order. -/
def estimationInputFields : List String :=
  ["modules", "complexity", "environment", "integration_level", "geography",
   "clearance_level", "is_prime_contractor", "custom_role_overrides",
   "project_name", "government_poc", "account_manager", "service_delivery_mgr",
   "service_delivery_exec", "site_location", "email", "fy", "rap_number",
   "psi_code", "additional_comments", "sites", "overtime", "odc_items",
   "fixed_price_items", "hardware_subtotal", "warranty_months", "warranty_cost"]

/-- The keyword arguments the `/api/v1/estimate` handler passes to
`EstimationInput(...)` in `backend/app/main.py` lines 763-796, in order. -/
def estimateHandlerKwargs : List String :=
  ["modules", "complexity", "environment", "integration_level", "geography",
   "clearance_level", "is_prime_contractor", "custom_role_overrides",
   "project_name", "government_poc", "account_manager", "service_delivery_mgr",
   "service_delivery_exec", "site_location", "email", "fy", "rap_number",
   "psi_code", "additional_comments", "security_protocols",
   "compliance_frameworks", "additional_assumptions", "sites", "overtime",
   "period_of_performance", "estimating_method", "historical_estimates",
   "odc_items", "fixed_price_items", "hardware_subtotal", "warranty_months",
   "warranty_cost"]

/-- The six keyword arguments of the handler that the dataclass does not
declare. -/
def undeclaredEstimateKwargs : List String :=
  ["security_protocols", "compliance_frameworks", "additional_assumptions",
   "period_of_performance", "estimating_method", "historical_estimates"]

/-- Attribute read on a dataclass instance whose declared fields are
`fields`: `AttributeError` when the attribute is not declared. -/
def dataclassAccess (fields : List String) (attr : String) : Except PyExc Unit :=
  if attr ∈ fields then .ok () else .error PyExc.attributeError

/-- Calling a dataclass constructor with keyword arguments `kwargs`:
`TypeError` when any keyword is not a declared field. -/
def dataclassInit (fields kwargs : List String) : Except PyExc Unit :=
  if kwargs.all (fun k => fields.contains k) then .ok () else .error PyExc.typeError

/-- The `EstimationInput` attributes `calculate_estimate` reads before its
unconditional `_compute_historical_adjustment` call (lines 16-49), whose
first statement reads `input_data.estimating_method` (line 374). -/
def attrsReadBeforeHistoricalAdjustment : List String :=
  ["modules", "complexity", "environment", "integration_level", "sites",
   "custom_role_overrides", "geography", "clearance_level", "overtime"]

/-! ## Proposal store (`backend/app/services/proposal_store_service.py`),
in-memory branch.  Random ids and timestamps are passed in as parameters;
JSON payloads are opaque blobs. -/

/-- Opaque JSON payload blob. -/
abbrev Payload := String

/-- A row of `self._proposals_mem`. -/
structure ProposalRecord where
  proposal_id : String
  public_id : String
  owner_email : String
  title : Option String
  payload : Payload
  created_at : String
  updated_at : String
  deriving DecidableEq, Repr

/-- A row of `self._versions_mem[proposal_id]`. -/
structure VersionRecord where
  proposal_id : String
  version : ℤ
  version_id : String
  title : Option String
  payload : Payload
  created_at : String
  deriving DecidableEq, Repr

/-- A row of `self._documents_mem[proposal_id]`. -/
structure DocumentRecord where
  proposal_id : String
  document_id : String
  kind : String
  version : Option ℤ
  filename : String
  content_type : Option String
  bucket : String
  key : String
  size_bytes : ℤ
  created_at : String
  deriving DecidableEq, Repr

/-- Python dict lookup. -/
def dictGet {α : Type} (d : List (String × α)) (k : String) : Option α :=
  (d.find? (fun p => p.1 == k)).map (·.2)

/-- Python dict assignment: overwrite in place, or append a new key. -/
def dictSet {α : Type} (d : List (String × α)) (k : String) (v : α) :
    List (String × α) :=
  if (d.find? (fun p => p.1 == k)).isSome then
    d.map (fun p => if p.1 == k then (k, v) else p)
  else d ++ [(k, v)]

/-- Python `dict.pop(k, None)` keyed removal. -/
def dictRemove {α : Type} (d : List (String × α)) (k : String) :
    List (String × α) :=
  d.filter (fun p => !(p.1 == k))

/-- The three in-memory dicts of `ProposalStoreService`. -/
structure StoreState where
  proposals : List (String × ProposalRecord) := []
  versions : List (String × List VersionRecord) := []
  documents : List (String × List (String × DocumentRecord)) := []
  deriving DecidableEq, Repr

/-- `self._versions_mem.get(proposal_id, [])`. -/
def versionsOf (s : StoreState) (proposal_id : String) : List VersionRecord :=
  (dictGet s.versions proposal_id).getD []

/-- `self._documents_mem.get(proposal_id, {})`. -/
def documentsOf (s : StoreState) (proposal_id : String) :
    List (String × DocumentRecord) :=
  (dictGet s.documents proposal_id).getD []

/-- `create_proposal` (memory branch): stores the proposal and an initial
version numbered 1. -/
def createProposal (s : StoreState)
    (proposal_id public_id version_id owner_email : String)
    (title : Option String) (payload : Payload) (now : String) :
    StoreState × ProposalRecord :=
  let proposal : ProposalRecord :=
    { proposal_id := proposal_id, public_id := public_id,
      owner_email := owner_email, title := title, payload := payload,
      created_at := now, updated_at := now }
  let version : VersionRecord :=
    { proposal_id := proposal_id, version := 1, version_id := version_id,
      title := title, payload := payload, created_at := now }
  ({ proposals := dictSet s.proposals proposal_id proposal,
     versions := dictSet s.versions proposal_id [version],
     documents :=
       if (dictGet s.documents proposal_id).isSome then s.documents
       else dictSet s.documents proposal_id [] },
   proposal)

/-- `get_owned_proposal` (memory branch): `None` unless the stored owner
email matches the supplied one. -/
def getOwnedProposal (s : StoreState) (proposal_id owner_email : String) :
    Option ProposalRecord :=
  match dictGet s.proposals proposal_id with
  | some item => if item.owner_email ≠ owner_email then none else some item
  | none => none

/-- `versions[-1]["version"] + 1 if versions else 1`. -/
def nextVersionNumber (versions : List VersionRecord) : ℤ :=
  match versions.getLast? with
  | some v => v.version + 1
  | none => 1

/-- `create_version` (memory branch). -/
def createVersion (s : StoreState) (proposal_id owner_email : String)
    (title : Option String) (payload : Payload) (version_id now : String) :
    Except PyExc (StoreState × VersionRecord) :=
  match getOwnedProposal s proposal_id owner_email with
  | none => .error PyExc.keyError
  | some proposal =>
    let versions := versionsOf s proposal_id
    let next_version := nextVersionNumber versions
    let version : VersionRecord :=
      { proposal_id := proposal_id, version := next_version,
        version_id := version_id, title := pyOrStr title proposal.title,
        payload := payload, created_at := now }
    let proposal' := { proposal with
      payload := payload,
      title := match title with
        | some t => some t
        | none => proposal.title,
      updated_at := now }
    .ok ({ proposals := dictSet s.proposals proposal_id proposal',
           versions := dictSet s.versions proposal_id (versions ++ [version]),
           documents := s.documents },
         version)

/-- Insertion into a list sorted by the boolean comparator `le`. -/
def insertSorted {α : Type} (le : α → α → Bool) (x : α) : List α → List α
  | [] => [x]
  | y :: ys => if le x y then x :: y :: ys else y :: insertSorted le x ys

/-- `list.sort(key=...)` modelled as insertion sort with comparator `le`. -/
def sortByKey {α : Type} (le : α → α → Bool) (l : List α) : List α :=
  l.foldr (insertSorted le) []

/-- `list_versions` (memory branch): empty unless owned, else the stored
rows sorted ascending by version. -/
def listVersions (s : StoreState) (proposal_id owner_email : String) :
    List VersionRecord :=
  match getOwnedProposal s proposal_id owner_email with
  | none => []
  | some _ =>
    sortByKey (fun a b => decide (a.version ≤ b.version)) (versionsOf s proposal_id)

/-- `get_version` (memory branch). -/
def getVersion (s : StoreState) (proposal_id : String) (version : ℤ)
    (owner_email : String) : Option VersionRecord :=
  match getOwnedProposal s proposal_id owner_email with
  | none => none
  | some _ => (versionsOf s proposal_id).find? (fun v => v.version == version)

/-- `list_documents` (memory branch). -/
def listDocuments (s : StoreState) (proposal_id owner_email : String)
    (version : Option ℤ) : List DocumentRecord :=
  match getOwnedProposal s proposal_id owner_email with
  | none => []
  | some _ =>
    let rows := (documentsOf s proposal_id).map (·.2)
    let rows := match version with
      | some v => rows.filter (fun r =>
          match r.version with
          | some rv => rv == v
          | none => false)
      | none => rows
    sortByKey (fun a b => decide (a.created_at ≤ b.created_at)) rows

/-- `add_document` (memory branch). -/
def addDocument (s : StoreState) (proposal_id owner_email kind : String)
    (version : Option ℤ) (filename : String) (content_type : Option String)
    (bucket key : String) (size_bytes : ℤ) (document_id now : String) :
    Except PyExc (StoreState × DocumentRecord) :=
  match getOwnedProposal s proposal_id owner_email with
  | none => .error PyExc.keyError
  | some _ =>
    let row : DocumentRecord :=
      { proposal_id := proposal_id, document_id := document_id, kind := kind,
        version := version, filename := filename, content_type := content_type,
        bucket := bucket, key := key, size_bytes := size_bytes,
        created_at := now }
    let docs := dictSet (documentsOf s proposal_id) document_id row
    .ok ({ s with documents := dictSet s.documents proposal_id docs }, row)

/-- `get_document` (memory branch). -/
def getDocument (s : StoreState) (proposal_id document_id owner_email : String) :
    Option DocumentRecord :=
  match getOwnedProposal s proposal_id owner_email with
  | none => none
  | some _ => dictGet (documentsOf s proposal_id) document_id

/-- `delete_document` (memory branch): returns whether a row was removed. -/
def deleteDocument (s : StoreState) (proposal_id document_id owner_email : String) :
    StoreState × Bool :=
  match getOwnedProposal s proposal_id owner_email with
  | none => (s, false)
  | some _ =>
    let docs := documentsOf s proposal_id
    if (dictGet docs document_id).isSome then
      ({ s with documents :=
           dictSet s.documents proposal_id (dictRemove docs document_id) },
       true)
    else (s, false)

/-- The store states reachable from the fresh service (empty dicts) through
the mutating operations. -/
inductive ReachableStore : StoreState → Prop where
  | empty : ReachableStore {}
  | create (s : StoreState) (pid pub vid owner : String) (title : Option String)
      (payload : Payload) (now : String) :
      ReachableStore s →
      ReachableStore (createProposal s pid pub vid owner title payload now).1
  | newVersion (s : StoreState) (pid owner : String) (title : Option String)
      (payload : Payload) (vid now : String) (s' : StoreState) (v : VersionRecord) :
      ReachableStore s →
      createVersion s pid owner title payload vid now = .ok (s', v) →
      ReachableStore s'
  | addDoc (s : StoreState) (pid owner kind : String) (version : Option ℤ)
      (filename : String) (content_type : Option String) (bucket key : String)
      (size_bytes : ℤ) (did now : String) (s' : StoreState) (d : DocumentRecord) :
      ReachableStore s →
      addDocument s pid owner kind version filename content_type bucket key
        size_bytes did now = .ok (s', d) →
      ReachableStore s'
  | delDoc (s : StoreState) (pid did owner : String) :
      ReachableStore s →
      ReachableStore (deleteDocument s pid did owner).1

/-- The version list of a proposal is exactly `1, 2, ..., n`. -/
def ConsecutiveVersions (l : List VersionRecord) : Prop :=
  l.map (·.version) = (List.range l.length).map (fun (i : ℕ) => (i : ℤ) + 1)

/-- The highest stored version number of a proposal (0 when none). -/
def highestVersion (s : StoreState) (proposal_id : String) : ℤ :=
  ((versionsOf s proposal_id).map (·.version)).foldr max 0

/-- A one-proposal sample store. -/
def sampleStore : StoreState :=
  (createProposal {} "p1" "pub1" "ver1" "owner" none "payload" "t0").1

/-! ## Dual-mode configuration (`proposal_store_service.py`,
`report_job_service.py`).  The DynamoDB branches perform external I/O and
are abstracted as explicit `dynamo*` result parameters; the theorems below
only exercise configurations in which those branches are unreachable. -/

/-- Python truthiness of `os.getenv(...)`: unset and empty are falsy. -/
def envTruthy (v : Option String) : Bool :=
  match v with
  | some s => s != ""
  | none => false

/-- The environment read by `ProposalStoreService.__init__`. -/
structure ProposalEnv where
  proposals_table_name : Option String := none
  proposal_versions_table_name : Option String := none
  proposal_documents_table_name : Option String := none
  aws_lambda_function_name : Option String := none
  boto3_available : Bool := true
  deriving DecidableEq, Repr

/-- Whether the three Dynamo table handles were created. -/
def psTablesConfigured (env : ProposalEnv) : Bool :=
  env.boto3_available && envTruthy env.proposals_table_name
    && envTruthy env.proposal_versions_table_name
    && envTruthy env.proposal_documents_table_name

/-- `self.in_lambda = bool(os.getenv("AWS_LAMBDA_FUNCTION_NAME"))`. -/
def psInLambda (env : ProposalEnv) : Bool :=
  envTruthy env.aws_lambda_function_name

/-- `ProposalStoreService.mode()`. -/
def psMode (env : ProposalEnv) : String :=
  if psTablesConfigured env then "dynamo" else "memory"

/-- `ProposalStoreService.is_configured()`. -/
def psIsConfigured (env : ProposalEnv) : Bool :=
  psTablesConfigured env || !psInLambda env

/-- `_ensure_configured`: `RuntimeError` when not configured. -/
def psEnsureConfigured (env : ProposalEnv) : Except PyExc Unit :=
  if psIsConfigured env then .ok () else .error PyExc.runtimeError

/-- `create_proposal` with its configuration guard and mode dispatch. -/
def createProposalEnv (env : ProposalEnv)
    (dynamoResult : Except PyExc (StoreState × ProposalRecord))
    (s : StoreState) (proposal_id public_id version_id owner_email : String)
    (title : Option String) (payload : Payload) (now : String) :
    Except PyExc (StoreState × ProposalRecord) :=
  match psEnsureConfigured env with
  | .error e => .error e
  | .ok _ =>
    if psTablesConfigured env then dynamoResult
    else .ok (createProposal s proposal_id public_id version_id owner_email
      title payload now)

/-- `create_version` with its configuration guard and mode dispatch. -/
def createVersionEnv (env : ProposalEnv)
    (dynamoResult : Except PyExc (StoreState × VersionRecord))
    (s : StoreState) (proposal_id owner_email : String) (title : Option String)
    (payload : Payload) (version_id now : String) :
    Except PyExc (StoreState × VersionRecord) :=
  match psEnsureConfigured env with
  | .error e => .error e
  | .ok _ =>
    if psTablesConfigured env then dynamoResult
    else createVersion s proposal_id owner_email title payload version_id now

/-- `add_document` with its configuration guard and mode dispatch. -/
def addDocumentEnv (env : ProposalEnv)
    (dynamoResult : Except PyExc (StoreState × DocumentRecord))
    (s : StoreState) (proposal_id owner_email kind : String) (version : Option ℤ)
    (filename : String) (content_type : Option String) (bucket key : String)
    (size_bytes : ℤ) (document_id now : String) :
    Except PyExc (StoreState × DocumentRecord) :=
  match psEnsureConfigured env with
  | .error e => .error e
  | .ok _ =>
    if psTablesConfigured env then dynamoResult
    else addDocument s proposal_id owner_email kind version filename
      content_type bucket key size_bytes document_id now

/-- The environment read by `ReportJobService.__init__`. -/
structure ReportJobEnv where
  report_jobs_table_name : Option String := none
  aws_lambda_function_name : Option String := none
  boto3_available : Bool := true
  deriving DecidableEq, Repr

/-- Whether `self.table` was created. -/
def rjTableConfigured (env : ReportJobEnv) : Bool :=
  env.boto3_available && envTruthy env.report_jobs_table_name

/-- `ReportJobService.mode()`. -/
def rjMode (env : ReportJobEnv) : String :=
  if rjTableConfigured env then "dynamo" else "memory"

/-- `ReportJobService.is_configured()`. -/
def rjIsConfigured (env : ReportJobEnv) : Bool :=
  rjTableConfigured env || !envTruthy env.aws_lambda_function_name

/-- A report job record. -/
structure ReportJob where
  job_id : String
  owner_email : String
  job_kind : String
  status : String
  request_payload : Payload
  result_payload : Payload := ""
  error : Option String := none
  created_at : String
  started_at : Option String := none
  finished_at : Option String := none
  updated_at : String
  deriving DecidableEq, Repr

/-- The in-memory job dict. -/
abbrev RJMemory := List (String × ReportJob)

/-- `save_job`: configuration guard, then Dynamo put or memory write. -/
def rjSaveJob (env : ReportJobEnv) (dynamoPut : ReportJob → Except PyExc Unit)
    (mem : RJMemory) (item : ReportJob) : Except PyExc (RJMemory × ReportJob) :=
  if rjIsConfigured env = false then .error PyExc.runtimeError
  else if rjTableConfigured env then
    match dynamoPut item with
    | .error e => .error e
    | .ok _ => .ok (mem, item)
  else .ok (dictSet mem item.job_id item, item)

/-- `create_job`: builds the queued job record and saves it. -/
def rjCreateJob (env : ReportJobEnv) (dynamoPut : ReportJob → Except PyExc Unit)
    (mem : RJMemory) (owner_email job_kind : String) (request_payload : Payload)
    (job_id now : String) : Except PyExc (RJMemory × ReportJob) :=
  if rjIsConfigured env = false then .error PyExc.runtimeError
  else
    let item : ReportJob :=
      { job_id := job_id, owner_email := owner_email, job_kind := job_kind,
        status := "queued", request_payload := request_payload,
        created_at := now, updated_at := now }
    rjSaveJob env dynamoPut mem item

/-- `get_job`: `None` when unconfigured or the id is falsy, else Dynamo
fetch or memory lookup. -/
def rjGetJob (env : ReportJobEnv)
    (dynamoGet : String → Except PyExc (Option ReportJob)) (mem : RJMemory)
    (job_id : String) : Except PyExc (Option ReportJob) :=
  if rjIsConfigured env = false || job_id == "" then .ok none
  else if rjTableConfigured env then dynamoGet job_id
  else .ok (dictGet mem job_id)

/-! ## SAM contract-sync quota logic (`backend/app/main.py` lines 560-733).
Dates are opaque strings, instants are integer epoch seconds, and the
outcome of each `fetch_sam_opportunities` request is an oracle
`fetchOk : ℕ → Bool` indexed by page. -/

/-- The configuration constants the sync loop reads. -/
structure SamConfig where
  api_key_present : Bool := true
  max_requests_per_day : ℤ := 8
  pages : ℤ := 1
  min_interval_minutes : ℤ := 0
  deriving DecidableEq, Repr

/-- The persistent `ContractSyncState` fields the quota logic touches. -/
structure SamSyncState where
  requests_today : ℤ := 0
  requests_today_date : Option String := none
  last_run_at : Option ℤ := none
  deriving DecidableEq, Repr

/-- The result dict of `_sync_sam_contracts` (fields the claims mention). -/
structure SamResult where
  status : String
  reason : Option String := none
  request_count : ℕ := 0
  deriving DecidableEq, Repr

/-- `_reset_daily_budget`: zero the counter when the stored date differs
from today. -/
def resetDailyBudget (st : SamSyncState) (today : String) : SamSyncState :=
  if st.requests_today_date ≠ some today then
    { st with requests_today_date := some today, requests_today := 0 }
  else st

/-- The page loop of `_sync_sam_contracts`: each iteration increments
`requests_today` and then issues one fetch; a failed fetch aborts the run.
Returns the final state, the request count, and whether all fetches
succeeded. -/
def runFetchPages (fetchOk : ℕ → Bool) :
    ℕ → ℕ → SamSyncState → ℕ → SamSyncState × ℕ × Bool
  | 0, _, st, count => (st, count, true)
  | n + 1, i, st, count =>
    let st' := { st with requests_today := st.requests_today + 1 }
    if fetchOk i then runFetchPages fetchOk n (i + 1) st' (count + 1)
    else (st', count + 1, false)

/-- The scheduled-trigger min-interval guard of `_sync_sam_contracts`. -/
def minIntervalSkipOf (cfg : SamConfig) (st : SamSyncState) (now : ℤ)
    (trigger : String) : Bool :=
  trigger == "scheduled" &&
    (match st.last_run_at with
     | some lr => decide (now - lr < max 0 cfg.min_interval_minutes * 60)
     | none => false)

/-- `_sync_sam_contracts` restricted to its quota/state logic. -/
def syncSamContracts (cfg : SamConfig) (st0 : SamSyncState) (today : String)
    (now : ℤ) (trigger : String) (fetchOk : ℕ → Bool) :
    SamResult × SamSyncState :=
  if cfg.api_key_present = false then
    ({ status := "skipped", reason := some "missing_api_key" }, st0)
  else if cfg.max_requests_per_day ≤ 0 then
    ({ status := "skipped", reason := some "daily_limit_disabled" }, st0)
  else
    let st := resetDailyBudget st0 today
    if minIntervalSkipOf cfg st now trigger then
      ({ status := "skipped", reason := some "min_interval" }, st)
    else
      let remaining := max 0 (cfg.max_requests_per_day - st.requests_today)
      if remaining ≤ 0 then
        ({ status := "skipped", reason := some "daily_limit_reached" },
         { st with last_run_at := some now })
      else
        let pages := min (max 1 cfg.pages) remaining
        let run := runFetchPages fetchOk pages.toNat 0 st 0
        if run.2.2 then
          ({ status := "ok", request_count := run.2.1 },
           { run.1 with last_run_at := some now })
        else
          ({ status := "error", request_count := run.2.1 },
           { run.1 with last_run_at := some now })

/-! ## AI narrative fallback (`backend/app/services/ai_service.py`).
`generate_narrative` builds a context dict, then calls the external
chat-completion API inside `try/except`; on any exception it returns the
deterministic `_offline_narrative`.  The context is modelled structurally
and the completion call as an `Except` outcome. -/

/-- Python string truthiness filter. -/
def truthyStr (v : Option String) : Option String :=
  match v with
  | some s => if s == "" then none else some s
  | none => none

/-- `x or default` on an optional string. -/
def strOr (v : Option String) (d : String) : String :=
  match v with
  | some s => if s == "" then d else s
  | none => d

/-- `x or 0` on an optional number. -/
def numOr0 (v : Option ℚ) : ℚ :=
  match v with
  | some x => x
  | none => 0

/-- Digit grouping of `toString` output in threes. -/
def chunk3 : List Char → List (List Char)
  | [] => []
  | [a] => [[a]]
  | [a, b] => [[a, b]]
  | a :: b :: c :: rest => [a, b, c] :: chunk3 rest

/-- A natural number with thousands separators, as Python `f"{n:,}"`. -/
def commaGroupNat (n : ℕ) : String :=
  let ds := (toString n).toList
  let groups := ((chunk3 ds.reverse).map List.reverse).reverse
  String.mk (List.intercalate [','] groups)

/-- Python `f"{q:,.2f}"` on an exact rational. -/
def pyFormatComma2 (q : ℚ) : String :=
  let cents := roundHalfEven (100 * q)
  let sign := if cents < 0 then "-" else ""
  let a := cents.natAbs
  let frac := a % 100
  sign ++ commaGroupNat (a / 100) ++ "."
    ++ (if frac < 10 then "0" ++ toString frac else toString frac)

/-- Python `f"{q:.0f}"` on an exact rational. -/
def pyFormatF0 (q : ℚ) : String :=
  toString (roundHalfEven q)

/-- `_compact_whitespace`: collapse whitespace runs and strip the ends. -/
def compactWhitespace (s : String) : String :=
  String.intercalate " " ((s.split (fun c => c.isWhitespace)).filter (fun t => t != ""))

/-- `_trim_text`: compact whitespace, then truncate to `max_chars`. -/
def trimText (text : Option String) (max_chars : ℕ) : String :=
  match text with
  | none => ""
  | some s =>
    let cleaned := compactWhitespace s
    if max_chars ≠ 0 ∧ 0 < max_chars ∧ max_chars < cleaned.length then
      String.mk (cleaned.toList.take max_chars)
    else cleaned

/-- The parts of the narrative context dict that `_offline_narrative`
reads (summary values, module/role labels, project info). -/
structure NarrativeContext where
  total_labor_hours : Option ℚ := none
  total_cost : Option ℚ := none
  risk_reserve : Option ℚ := none
  overhead_cost : Option ℚ := none
  effective_hourly_rate : Option ℚ := none
  complexity : Option String := none
  module_count : Option ℕ := none
  modules : List (Option String) := []
  roles : List (Option String) := []
  project_name : Option String := none
  fy : Option String := none
  site_location : Option String := none
  government_poc : Option String := none
  security_protocols : Option String := none
  compliance_frameworks : Option String := none
  additional_assumptions : Option String := none
  deriving DecidableEq, Repr

/-- The default section list (`generate_narrative` line 75). -/
def defaultSections : List String :=
  ["executive_summary", "assumptions", "risks", "recommendations"]

/-- `", ".join([m.get("name") or "module" for m in modules]) or "selected modules"`. -/
def ctxModuleNames (ctx : NarrativeContext) : String :=
  let joined := String.intercalate ", " (ctx.modules.map (fun m => strOr m "module"))
  if joined == "" then "selected modules" else joined

/-- `", ".join([r.get("role") or "role" for r in roles[:3]])`. -/
def ctxTopRoles (ctx : NarrativeContext) : String :=
  String.intercalate ", " ((ctx.roles.take 3).map (fun r => strOr r "role"))

/-- The `project_bits` joined into `project_intro`. -/
def ctxProjectIntro (ctx : NarrativeContext) : String :=
  let project_bits : List String :=
    (match truthyStr ctx.project_name with
      | some s => [s]
      | none => [])
    ++ (match truthyStr ctx.fy with
      | some s => ["FY " ++ s]
      | none => [])
    ++ (match truthyStr ctx.site_location with
      | some s => [s]
      | none => [])
    ++ (match truthyStr ctx.government_poc with
      | some s => ["POC: " ++ s]
      | none => [])
  String.intercalate ", " project_bits

/-- `mod_count = summary.get("module_count") or len(modules)`. -/
def ctxModCount (ctx : NarrativeContext) : ℕ :=
  match ctx.module_count with
  | some n => if n = 0 then ctx.modules.length else n
  | none => ctx.modules.length

/-- The `executive_summary` paragraph of `_offline_narrative`. -/
def offlineExecutiveSummary (ctx : NarrativeContext) : String :=
  let project_intro := ctxProjectIntro ctx
  let mod_count := ctxModCount ctx
  let sentences : List String :=
    (if project_intro != "" then ["Project overview: " ++ project_intro ++ "."]
     else [])
    ++ ["This estimate covers " ++ toString mod_count ++ " "
        ++ (if mod_count = 1 then "module" else "modules")
        ++ " with a " ++ strOr ctx.complexity "M"
        ++ " complexity profile and approximately "
        ++ pyFormatF0 (numOr0 ctx.total_labor_hours) ++ " labor hours, totaling $"
        ++ pyFormatComma2 (numOr0 ctx.total_cost) ++ " (risk reserve $"
        ++ pyFormatComma2 (numOr0 ctx.risk_reserve) ++ ", overhead $"
        ++ pyFormatComma2 (numOr0 ctx.overhead_cost) ++ ")."]
    ++ ["Services include " ++ ctxModuleNames ctx ++ " aligned to the RFP scope."]
    ++ (let sec_bits : List String :=
          (match truthyStr ctx.security_protocols with
            | some s => ["security protocols: " ++ s]
            | none => [])
          ++ (match truthyStr ctx.compliance_frameworks with
            | some s => ["compliance frameworks: " ++ s]
            | none => [])
        if sec_bits.isEmpty then []
        else ["Security posture highlights "
              ++ String.intercalate "; " sec_bits ++ "."])
    ++ ["The effective blended rate is about $"
        ++ pyFormatComma2 (numOr0 ctx.effective_hourly_rate) ++ " per hour."]
  String.intercalate " " (sentences.take 5)

/-- The `assumptions` paragraph of `_offline_narrative`. -/
def offlineAssumptions (ctx : NarrativeContext) : String :=
  let top_roles := ctxTopRoles ctx
  let assumption_sentences : List String :=
    ["Estimates assume a typical staffing mix ("
     ++ (if top_roles == "" then "multi-disciplinary team" else top_roles)
     ++ ") and standard project cadence.",
     "Module sequencing accounts for prerequisites, dependency alignment, and access to required data and stakeholders.",
     "Security reviews, compliance checkpoints, and approvals are aligned with the proposed schedule."]
    ++ (match truthyStr ctx.additional_assumptions with
      | some aa => ["Additional assumptions provided: "
          ++ trimText (some aa) 240 ++ "."]
      | none => [])
  String.intercalate " " (assumption_sentences.take 4)

/-- The `risks` paragraph of `_offline_narrative`. -/
def offlineRisks (ctx : NarrativeContext) : String :=
  "Primary risks include scope growth and integration unknowns that could extend effort beyond the baseline "
  ++ pyFormatF0 (numOr0 ctx.total_labor_hours) ++ " hours. "
  ++ "Multi-module dependencies (" ++ ctxModuleNames ctx
  ++ ") may impact sequencing and throughput. "
  ++ "The allocated risk reserve of $" ++ pyFormatComma2 (numOr0 ctx.risk_reserve)
  ++ " is intended to buffer typical variance."

/-- The `recommendations` paragraph of `_offline_narrative`. -/
def offlineRecommendations : String :=
  "Begin with a short planning sprint to refine scope and confirm interfaces. "
  ++ "Sequence delivery to realize early value while de-risking complex integrations. "
  ++ "Review staffing against milestones and adjust to maintain schedule confidence."

/-- `_offline_narrative` (lines 1056-1139): a dict with one string per
recognised requested section, in insertion order. -/
def offlineNarrative (ctx : NarrativeContext) (sections : List String)
    (tone : String) : List (String × String) :=
  let secs := if sections.isEmpty then defaultSections else sections
  (if secs.contains "executive_summary" then
    [("executive_summary", offlineExecutiveSummary ctx)]
  else [])
  ++ (if secs.contains "assumptions" then
    [("assumptions", offlineAssumptions ctx)]
  else [])
  ++ (if secs.contains "risks" then
    [("risks", offlineRisks ctx)]
  else [])
  ++ (if secs.contains "recommendations" then
    [("recommendations", offlineRecommendations)]
  else [])

/-- Which OpenAI SDK the service found. -/
inductive SdkMode where
  | v1
  | v0
  deriving DecidableEq, Repr

/-- Lines 103-123 of `generate_narrative`: the guarded completion call.
`completion` is the outcome of the external API call: on success the
(optional) message content, on failure the raised exception's message.
Both SDK branches catch every exception and return the offline narrative;
a successful call yields the content string (`"{}"` when falsy). -/
def narrativeCompletionStep (mode : SdkMode)
    (completion : Except String (Option String)) (ctx : NarrativeContext)
    (sections : List String) (tone : String) :
    Except PyExc (Sum String (List (String × String))) :=
  match mode, completion with
  | _, .ok content =>
    .ok (.inl (match content with
      | some c => if c == "" then "\x7b\x7d" else c
      | none => "\x7b\x7d"))
  | _, .error _ => .ok (.inr (offlineNarrative ctx sections tone))

/-! ## General lemmas -/

theorem reserveTotal_ok_mr {S : ℚ} {p : Bool} {rr tot : ℚ}
    (h : computeReserveTotal S p = .ok (rr, tot)) :
    rr = rules0.risk_reserve_percentage * tot := by
  cases p <;>
  · simp only [computeReserveTotal, rules0] at h
    norm_num at h
    obtain ⟨h1, h2⟩ := h
    subst h1
    subst h2
    show _ = (0.15 : ℚ) * _
    ring

theorem reserveTotal_isOk (S : ℚ) (p : Bool) :
    ∃ rt, computeReserveTotal S p = .ok rt := by
  cases p <;>
  · simp only [computeReserveTotal, rules0]
    norm_num

theorem calculateEstimate_ok_inv {input : EstimationInput} {r : EstimationResult}
    (h : calculateEstimate input = .ok r) :
    anyUnknownModule input = false ∧
      ∃ rt, computeReserveTotal (subtotalWithoutRisk input) input.is_prime_contractor
          = .ok rt ∧ r = mkEstimationResult input rt := by
  unfold calculateEstimate at h
  by_cases ha : anyUnknownModule input = true
  · rw [if_pos ha] at h
    cases h
  · have ha' : anyUnknownModule input = false := by
      cases hb : anyUnknownModule input
      · rfl
      · exact absurd hb ha
    rw [if_neg (by simp [ha'])] at h
    refine ⟨ha', ?_⟩
    cases hrt : computeReserveTotal (subtotalWithoutRisk input) input.is_prime_contractor with
    | error e =>
      rw [hrt] at h
      cases h
    | ok rt =>
      rw [hrt] at h
      cases h
      exact ⟨rt, rfl, rfl⟩

theorem calculateEstimate_ok_of (input : EstimationInput)
    (ha : anyUnknownModule input = false) :
    ∃ rt, calculateEstimate input = .ok (mkEstimationResult input rt) := by
  obtain ⟨rt, hrt⟩ :=
    reserveTotal_isOk (subtotalWithoutRisk input) input.is_prime_contractor
  refine ⟨rt, ?_⟩
  unfold calculateEstimate
  rw [if_neg (by simp [ha]), hrt]

/-! ## C1 -/

/-- C1: for every estimation input whose calculation succeeds, with the
service's rules satisfying `risk_reserve_percentage > 0` and (when the
prime-contractor margin applies) `1 - target * (1 + margin) > 0`, the
returned `risk_reserve` equals `risk_reserve_percentage * total_cost`,
in both the prime-contractor and the non-prime branch of the back-solve. -/
theorem c1_management_reserve_backsolve (input : EstimationInput)
    (r : EstimationResult)
    (htarget : 0 < rules0.risk_reserve_percentage)
    (hdenom : input.is_prime_contractor = true →
      0 < 1 - rules0.risk_reserve_percentage * (1 + rules0.prime_contractor_margin))
    (hok : calculateEstimate input = .ok r) :
    r.risk_reserve = rules0.risk_reserve_percentage * r.total_cost := by
  obtain ⟨-, rt, hrt, hr⟩ := calculateEstimate_ok_inv hok
  subst hr
  cases rt with
  | mk rr tot => exact reserveTotal_ok_mr hrt

/-- Witness for C1: a concrete one-module prime-contractor input. -/
theorem c1_witness :
    ∃ r, calculateEstimate { modules := ["dt_discovery"], complexity := .medium }
        = .ok r ∧ r.risk_reserve = rules0.risk_reserve_percentage * r.total_cost := by
  obtain ⟨rt, h⟩ :=
    calculateEstimate_ok_of { modules := ["dt_discovery"], complexity := .medium }
      (by decide)
  exact ⟨_, h,
    c1_management_reserve_backsolve { modules := ["dt_discovery"], complexity := .medium }
      _ (by norm_num [rules0]) (fun _ => by norm_num [rules0]) h⟩

/-! ## C4 -/

/-- C4: the declared `EstimationInput` dataclass does not admit the
calculation path: every attribute `calculate_estimate` reads before its
unconditional `_compute_historical_adjustment` call is declared, but that
call's first read, `estimating_method`, is not a declared field, so the
attribute access raises `AttributeError`; and the `/api/v1/estimate`
handler's constructor call passes six keyword arguments the dataclass does
not accept, so the constructor raises `TypeError`. -/
theorem c4_declared_input_mismatch :
    attrsReadBeforeHistoricalAdjustment.all (fun a => estimationInputFields.contains a) = true ∧
    dataclassAccess estimationInputFields "estimating_method" = .error PyExc.attributeError ∧
    dataclassInit estimationInputFields estimateHandlerKwargs = .error PyExc.typeError ∧
    undeclaredEstimateKwargs.all
      (fun k => estimateHandlerKwargs.contains k
        && !(estimationInputFields.contains k)) = true := by
  refine ⟨by decide, ?_, ?_, by decide⟩
  · unfold dataclassAccess
    rw [if_neg (by decide)]
  · unfold dataclassInit
    rw [if_neg (by decide)]

theorem lookupD_nonneg {l : List (String × ℚ)} {k : String}
    (h : ∀ p ∈ l, (0 : ℚ) ≤ p.2) : 0 ≤ lookupD l k 0 := by
  unfold lookupD
  cases hf : l.find? (fun p => p.1 == k) with
  | none => simp
  | some p => exact h p (List.mem_of_find?_eq_some hf)

theorem allModules_base_hours_nonneg :
    ∀ m ∈ allModules, ∀ p ∈ m.base_hours_by_role, (0 : ℚ) ≤ p.2 := by decide

theorem resolvedModules_eq (input : EstimationInput) :
    resolvedModules input = input.modules.filterMap getModule := by
  simp [resolvedModules, List.reduceOption, List.filterMap_map]

theorem mem_resolvedModules_catalog {input : EstimationInput} {m : CatModule}
    (h : m ∈ resolvedModules input) : m ∈ allModules := by
  rw [resolvedModules_eq] at h
  obtain ⟨mid, -, hm⟩ := List.mem_filterMap.mp h
  exact List.mem_of_find?_eq_some hm

theorem calcRoleHours_eq_sum (role : Role) (modules : List CatModule)
    (input : EstimationInput)
    (hnn : ∀ m ∈ modules, ∀ p ∈ m.base_hours_by_role, (0 : ℚ) ≤ p.2) :
    calcRoleHours role modules input =
      (modules.map (fun m => lookupD m.base_hours_by_role role.id 0
        * complexityMultiplier input
        * lookupD input.custom_role_overrides role.id 1.0)).sum := by
  unfold calcRoleHours
  induction modules with
  | nil => rfl
  | cons m rest ih =>
    simp only [List.map_cons, List.sum_cons]
    rw [ih (fun x hx => hnn x (List.mem_cons_of_mem _ hx))]
    congr 1
    by_cases hb : 0 < lookupD m.base_hours_by_role role.id 0
    · rw [if_pos hb]
    · rw [if_neg hb]
      have h0 : lookupD m.base_hours_by_role role.id 0 = 0 :=
        le_antisymm (not_lt.mp hb)
          (lookupD_nonneg (hnn m (List.mem_cons_self _ _)))
      rw [h0, zero_mul, zero_mul]

theorem computeHistoricalAdjustment_none_of_method {input : EstimationInput}
    {a b : ℚ} (h : estimatingMethodLower input ≠ "historical") :
    computeHistoricalAdjustment input a b = none := by
  unfold computeHistoricalAdjustment
  rw [if_pos h]

/-! ## C2 -/

/-- C2: with every module id resolving in the catalog and a non-historical
estimating method, each reported role's hours are the sum over the selected
modules of its base hours times the combined complexity multiplier times
its per-role override; its rate is base rate x geography x clearance x
overtime; its cost is hours x rate; the total labor cost is the sum of the
role costs and the overhead cost is `total_labor_cost * (overhead_multiplier - 1)`. -/
theorem c2_fixed_arithmetic_pipeline (input : EstimationInput)
    (r : EstimationResult)
    (hres : ∀ mid ∈ input.modules, (getModule mid).isSome)
    (hmeth : estimatingMethodLower input ≠ "historical")
    (hok : calculateEstimate input = .ok r) :
    (∀ e ∈ r.breakdown_by_role, ∃ role ∈ allRoles, e.role_id = role.id ∧
      e.hours = ((input.modules.filterMap getModule).map (fun m =>
          lookupD m.base_hours_by_role role.id 0 * complexityMultiplier input
            * lookupD input.custom_role_overrides role.id 1.0)).sum ∧
      e.effective_rate = role.base_hourly_rate
          * lookupD role.geography_multiplier input.geography 1.0
          * lookupD role.clearance_multiplier input.clearance_level 1.0
          * (if input.overtime then (1.2 : ℚ) else 1.0) ∧
      e.cost = e.hours * e.effective_rate) ∧
    r.total_labor_cost = (r.breakdown_by_role.map (·.cost)).sum ∧
    r.overhead_cost = r.total_labor_cost * (rules0.overhead_multiplier - 1) := by
  obtain ⟨ha, rt, hrt, hr⟩ := calculateEstimate_ok_inv hok
  subst hr
  have hhist : histOf input = none := by
    unfold histOf
    exact computeHistoricalAdjustment_none_of_method hmeth
  have hfb : finalBreakdown input = baseBreakdown input := by
    unfold finalBreakdown
    rw [hhist]
  refine ⟨?_, ?_, ?_⟩
  · intro e he
    simp only [mkEstimationResult] at he
    rw [hfb] at he
    unfold baseBreakdown roleBreakdownBase at he
    obtain ⟨role, hrole, hfe⟩ := List.mem_filterMap.mp he
    by_cases hpos : 0 < calcRoleHours role (resolvedModules input) input
    · rw [if_pos hpos] at hfe
      injection hfe with hfe
      subst hfe
      refine ⟨role, hrole, rfl, ?_, ?_, rfl⟩
      · show calcRoleHours role (resolvedModules input) input = _
        rw [calcRoleHours_eq_sum role _ input
          (fun m hm => allModules_base_hours_nonneg m (mem_resolvedModules_catalog hm)),
          resolvedModules_eq]
      · show calcEffectiveRate role input = _
        unfold calcEffectiveRate
        rfl
    · rw [if_neg hpos] at hfe
      cases hfe
  · rfl
  · rfl

/-- Witness for C2: two resolvable modules, engineering method. -/
theorem c2_witness :
    ∃ r, calculateEstimate
        { modules := ["dt_discovery", "sa_audit"], complexity := .medium }
        = .ok r ∧
      ((∀ e ∈ r.breakdown_by_role, ∃ role ∈ allRoles, e.role_id = role.id ∧
        e.hours = ((["dt_discovery", "sa_audit"].filterMap getModule).map (fun m =>
            lookupD m.base_hours_by_role role.id 0
              * complexityMultiplier { modules := ["dt_discovery", "sa_audit"], complexity := .medium }
              * lookupD ([] : List (String × ℚ)) role.id 1.0)).sum ∧
        e.effective_rate = role.base_hourly_rate
            * lookupD role.geography_multiplier "dc_metro" 1.0
            * lookupD role.clearance_multiplier "secret" 1.0
            * (if false then (1.2 : ℚ) else 1.0) ∧
        e.cost = e.hours * e.effective_rate) ∧
      r.total_labor_cost = (r.breakdown_by_role.map (·.cost)).sum ∧
      r.overhead_cost = r.total_labor_cost * (rules0.overhead_multiplier - 1)) := by
  obtain ⟨rt, h⟩ := calculateEstimate_ok_of
    { modules := ["dt_discovery", "sa_audit"], complexity := .medium } (by decide)
  exact ⟨_, h, c2_fixed_arithmetic_pipeline
    { modules := ["dt_discovery", "sa_audit"], complexity := .medium } _
    (by decide) (by decide) h⟩

theorem histHourValues_cons (e : HistoricalEntry) (rest : List HistoricalEntry) :
    histHourValues (e :: rest) =
      match pyOrNum e.actual_hours e.total_hours with
      | some h => if 0 < h then h :: histHourValues rest else histHourValues rest
      | none => histHourValues rest := by
  unfold histHourValues
  rw [List.filterMap_cons]
  cases hh : pyOrNum e.actual_hours e.total_hours with
  | none => rfl
  | some h =>
    by_cases hp : 0 < h
    · simp [hp]
    · simp [hp]

theorem histRateValues_cons (e : HistoricalEntry) (rest : List HistoricalEntry) :
    histRateValues (e :: rest) =
      match pyOrNum e.actual_hours e.total_hours with
      | some h =>
        if 0 < h then
          match histRate e h with
          | some r => r :: histRateValues rest
          | none => histRateValues rest
        else histRateValues rest
      | none => histRateValues rest := by
  unfold histRateValues
  rw [List.filterMap_cons]
  cases hh : pyOrNum e.actual_hours e.total_hours with
  | none => rfl
  | some h =>
    by_cases hp : 0 < h
    · cases hr : histRate e h <;> simp [hp, hr]
    · simp [hp]

theorem collectHist_eq (l : List HistoricalEntry) (idx : ℕ) :
    collectHist l idx = (histHourValues l, histRateValues l, histNames l idx) := by
  induction l generalizing idx with
  | nil => rfl
  | cons e rest ih =>
    rw [histHourValues_cons, histRateValues_cons]
    simp only [collectHist, histNames]
    cases hh : pyOrNum e.actual_hours e.total_hours with
    | none =>
      dsimp only
      exact ih (idx + 1)
    | some h =>
      dsimp only
      by_cases hp : 0 < h
      · simp only [if_pos hp, ih (idx + 1)]
      · simp only [if_neg hp]
        exact ih (idx + 1)

/-! ## C3 -/

/-- C3: with method `"historical"`, a selected entry with positive hours,
and a positive engineering baseline, the adjustment's hours multiplier is
the mean of the collected historical hours divided by the baseline hours,
and its rate multiplier is the mean of the collected effective rates (an
entry without a positive explicit rate contributes `total_cost / hours`)
divided by the baseline effective rate when rate data exists and the
baseline rate is positive, else 1.0; with a non-historical method or no
positive-hour selected entry the adjustment is `None` and the role
breakdown is left unscaled. -/
theorem c3_historical_actuals_blending (input : EstimationInput) (baseH baseR : ℚ) :
    (estimatingMethodLower input = "historical" →
      histHourValues (selectedHistoricals input) ≠ [] →
      0 < baseH →
      ∃ adj, computeHistoricalAdjustment input baseH baseR = some adj ∧
        adj.hours_multiplier =
          (histHourValues (selectedHistoricals input)).sum
            / ((histHourValues (selectedHistoricals input)).length : ℚ) / baseH ∧
        adj.rate_multiplier =
          (if histRateValues (selectedHistoricals input) ≠ [] ∧ 0 < baseR then
            (histRateValues (selectedHistoricals input)).sum
              / ((histRateValues (selectedHistoricals input)).length : ℚ) / baseR
          else 1)) ∧
    (estimatingMethodLower input ≠ "historical" →
      computeHistoricalAdjustment input baseH baseR = none) ∧
    (histHourValues (selectedHistoricals input) = [] →
      computeHistoricalAdjustment input baseH baseR = none) ∧
    (∀ r, calculateEstimate input = .ok r → histOf input = none →
      r.breakdown_by_role = baseBreakdown input) := by
  refine ⟨?_, ?_, ?_, ?_⟩
  · intro hmeth hhv hbase
    unfold computeHistoricalAdjustment
    rw [if_neg (by simp [hmeth])]
    have hsel : (selectedHistoricals input).isEmpty = false := by
      cases hs : selectedHistoricals input with
      | nil => exact absurd (by rw [histHourValues, hs]; rfl) hhv
      | cons a l => rfl
    have hhv' : (histHourValues (selectedHistoricals input)).isEmpty = false := by
      cases hs : histHourValues (selectedHistoricals input) with
      | nil => exact absurd hs hhv
      | cons a l => rfl
    simp only [hsel, Bool.false_eq_true, if_false, collectHist_eq, hhv',
      not_le.mpr hbase, or_false, if_pos hbase]
    by_cases hc : (histRateValues (selectedHistoricals input)).isEmpty = false ∧ 0 < baseR
    · have hc' : histRateValues (selectedHistoricals input) ≠ [] ∧ 0 < baseR := by
        refine ⟨?_, hc.2⟩
        intro hnil
        have hfalse := hc.1
        rw [hnil] at hfalse
        simp at hfalse
      rw [if_pos hc]
      exact ⟨_, rfl, rfl, by rw [if_pos hc']⟩
    · have hc' : ¬(histRateValues (selectedHistoricals input) ≠ [] ∧ 0 < baseR) := by
        intro hboth
        apply hc
        refine ⟨?_, hboth.2⟩
        cases hs : histRateValues (selectedHistoricals input) with
        | nil => exact absurd hs hboth.1
        | cons a l => rfl
      rw [if_neg hc]
      refine ⟨_, rfl, rfl, ?_⟩
      rw [if_neg hc']
      norm_num
  · intro hmeth
    exact computeHistoricalAdjustment_none_of_method hmeth
  · intro hhv
    unfold computeHistoricalAdjustment
    by_cases hmeth : estimatingMethodLower input ≠ "historical"
    · rw [if_pos hmeth]
    · rw [if_neg hmeth]
      cases hs : selectedHistoricals input with
      | nil => simp [hs]
      | cons a l =>
        have hv0 : histHourValues (a :: l) = [] := by
          rw [show a :: l = selectedHistoricals input from hs.symm]
          exact hhv
        simp [hs, collectHist_eq, hv0]
  · intro r hok hnone
    obtain ⟨-, rt, -, hr⟩ := calculateEstimate_ok_inv hok
    subst hr
    show finalBreakdown input = baseBreakdown input
    unfold finalBreakdown
    rw [hnone]

/-- Witness for C3: the sample historical input against a baseline of 50
hours at rate 10. -/
theorem c3_witness :
    ∃ adj, computeHistoricalAdjustment historicalSampleInput 50 10 = some adj ∧
      adj.hours_multiplier =
        (histHourValues (selectedHistoricals historicalSampleInput)).sum
          / ((histHourValues (selectedHistoricals historicalSampleInput)).length : ℚ) / 50 ∧
      adj.rate_multiplier =
        (if histRateValues (selectedHistoricals historicalSampleInput) ≠ [] ∧ (0 : ℚ) < 10 then
          (histRateValues (selectedHistoricals historicalSampleInput)).sum
            / ((histRateValues (selectedHistoricals historicalSampleInput)).length : ℚ) / 10
        else 1) :=
  (c3_historical_actuals_blending historicalSampleInput 50 10).1
    (by decide) (by decide) (by norm_num)

/-! ## C10 -/

/-- C10: an estimation input containing an unknown module id makes
`calculate_estimate` raise `AttributeError` (the unresolved id becomes
`None` and `None.base_hours_by_role` is dereferenced) rather than skipping
the id, even though `validate_estimate` only reports the warning
`"Module <id> not found"` and the estimate handler still runs the
calculation after collecting warnings. -/
theorem c10_unknown_module_raises (input : EstimationInput) (mid : String)
    (hmem : mid ∈ input.modules) (hunk : getModule mid = none) :
    calculateEstimate input = .error PyExc.attributeError ∧
    ("Module " ++ mid ++ " not found") ∈ validateEstimate input ∧
    estimateHandler input = .error PyExc.attributeError := by
  have hany : anyUnknownModule input = true := by
    unfold anyUnknownModule
    rw [List.any_eq_true]
    exact ⟨none, List.mem_map.mpr ⟨mid, hmem, hunk⟩, rfl⟩
  have hcalc : calculateEstimate input = .error PyExc.attributeError := by
    unfold calculateEstimate
    rw [if_pos hany]
  refine ⟨hcalc, ?_, ?_⟩
  · unfold validateEstimate
    refine List.mem_append.mpr (Or.inl (List.mem_append.mpr (Or.inl ?_)))
    exact List.mem_filterMap.mpr ⟨mid, hmem, by rw [hunk]; rfl⟩
  · unfold estimateHandler
    rw [hcalc]

/-- Witness for C10: the id `"nope"` is not in the catalog. -/
theorem c10_witness :
    calculateEstimate { modules := ["nope"], complexity := .medium }
        = .error PyExc.attributeError ∧
    ("Module " ++ "nope" ++ " not found")
        ∈ validateEstimate { modules := ["nope"], complexity := .medium } ∧
    estimateHandler { modules := ["nope"], complexity := .medium }
        = .error PyExc.attributeError :=
  c10_unknown_module_raises { modules := ["nope"], complexity := .medium } "nope"
    (by decide) (by decide)

theorem dictGet_dictSet_self {α : Type} (d : List (String × α)) (k : String) (v : α) :
    dictGet (dictSet d k v) k = some v := by
  unfold dictGet dictSet
  cases hf : d.find? (fun p => p.1 == k) with
  | none =>
    rw [if_neg (by simp [hf])]
    rw [List.find?_append, hf]
    simp
  | some q =>
    rw [if_pos (by simp [hf])]
    rw [List.find?_map]
    have hpred : ((fun p : String × α => p.1 == k) ∘
        (fun p : String × α => if p.1 == k then (k, v) else p)) =
        fun p : String × α => p.1 == k := by
      funext p
      by_cases hp : p.1 = k
      · simp [hp]
      · simp [hp]
    rw [hpred, hf]
    have hq := List.find?_some hf
    simp only [Option.map_some']
    rw [if_pos hq]

theorem dictGet_dictSet_ne {α : Type} (d : List (String × α)) {k k' : String}
    (v : α) (h : k' ≠ k) :
    dictGet (dictSet d k v) k' = dictGet d k' := by
  unfold dictGet dictSet
  cases hf : d.find? (fun p => p.1 == k) with
  | none =>
    rw [if_neg (by simp [hf])]
    rw [List.find?_append]
    have hk : (k == k') = false := by
      simp
      exact fun hk => absurd hk.symm h
    have hone : List.find? (fun p : String × α => p.1 == k') [(k, v)] = none := by
      simp [List.find?_cons, hk]
    rw [hone]
    simp
  | some q =>
    rw [if_pos (by simp [hf])]
    rw [List.find?_map]
    have hpred : ((fun p : String × α => p.1 == k') ∘
        (fun p : String × α => if p.1 == k then (k, v) else p)) =
        fun p : String × α => p.1 == k' := by
      funext p
      by_cases hp : p.1 = k
      · simp [hp]
      · simp [hp]
    rw [hpred]
    cases hg : d.find? (fun p : String × α => p.1 == k') with
    | none => simp
    | some r =>
      have hr : r.1 = k' := by simpa using List.find?_some hg
      have hrk : (r.1 == k) = false := by
        simp [hr]
        exact fun hk => absurd hk h
      simp only [Option.map_some']
      rw [if_neg (by simp [hrk])]

theorem foldr_max_of_le {l : List ℤ} {b : ℤ} (h : ∀ x ∈ l, x ≤ b) :
    l.foldr max b = b := by
  induction l with
  | nil => rfl
  | cons a t ih =>
    rw [List.foldr_cons, ih (fun x hx => h x (List.mem_cons_of_mem _ hx))]
    exact max_eq_right (h a (List.mem_cons_self _ _))

theorem consecutive_single (v : VersionRecord) (h : v.version = 1) :
    ConsecutiveVersions [v] := by
  simp [ConsecutiveVersions, h]
  decide

theorem nextVersionNumber_of_consecutive {l : List VersionRecord}
    (h : ConsecutiveVersions l) : nextVersionNumber l = (l.length : ℤ) + 1 := by
  cases hl : l.getLast? with
  | none =>
    have hnil : l = [] := List.getLast?_eq_none_iff.mp hl
    subst hnil
    rfl
  | some v =>
    have hne : l ≠ [] := by
      intro hnil
      rw [hnil] at hl
      cases hl
    obtain ⟨m, hm⟩ : ∃ m, l.length = m + 1 := by
      cases hlen : l.length with
      | zero => exact absurd (List.length_eq_zero.mp hlen) hne
      | succ m => exact ⟨m, rfl⟩
    have hmap : (l.map (·.version)).getLast? = some v.version := by
      rw [List.getLast?_map, hl]
      rfl
    rw [h, hm, List.range_succ, List.map_append] at hmap
    simp only [List.map_cons, List.map_nil] at hmap
    rw [List.getLast?_concat] at hmap
    have hv : v.version = (m : ℤ) + 1 := by
      injection hmap with hmap
      exact hmap.symm
    unfold nextVersionNumber
    rw [hl]
    dsimp only
    rw [hv, hm]
    push_cast
    ring

theorem consecutive_append {l : List VersionRecord} (h : ConsecutiveVersions l)
    {v : VersionRecord} (hv : v.version = (l.length : ℤ) + 1) :
    ConsecutiveVersions (l ++ [v]) := by
  unfold ConsecutiveVersions at h ⊢
  rw [List.map_append, h, List.length_append]
  have hlen : l.length + [v].length = l.length + 1 := rfl
  rw [hlen, List.range_succ, List.map_append]
  simp [hv]

theorem highestVersion_of_consecutive {l : List VersionRecord}
    (h : ConsecutiveVersions l) :
    (l.map (·.version)).foldr max 0 = (l.length : ℤ) := by
  rw [h]
  generalize l.length = n
  induction n with
  | zero => rfl
  | succ m ih =>
    rw [List.range_succ, List.map_append, List.foldr_append]
    simp only [List.map_cons, List.map_nil]
    have hone : List.foldr max (0 : ℤ) [(m : ℤ) + 1] = (m : ℤ) + 1 := by
      simp [List.foldr_cons]
      omega
    rw [hone]
    rw [foldr_max_of_le]
    · push_cast
      ring
    · intro x hx
      obtain ⟨i, hi, hix⟩ := List.mem_map.mp hx
      have : i < m := List.mem_range.mp hi
      omega

theorem pairwise_le_of_consecutive {l : List VersionRecord}
    (h : ConsecutiveVersions l) :
    List.Pairwise (fun a b => a.version ≤ b.version) l := by
  have hm : List.Pairwise (fun a b : ℤ => a ≤ b) (l.map (·.version)) := by
    rw [h]
    exact List.Pairwise.map _ (fun a b hab => by omega) (List.pairwise_lt_range _)
  exact List.pairwise_map.mp hm

theorem sortByKey_eq_of_pairwise {α : Type} (le : α → α → Bool) {l : List α}
    (h : List.Pairwise (fun a b => le a b = true) l) : sortByKey le l = l := by
  induction l with
  | nil => rfl
  | cons x xs ih =>
    have hx := List.pairwise_cons.mp h
    have htail : sortByKey le xs = xs := ih hx.2
    show insertSorted le x (sortByKey le xs) = x :: xs
    rw [htail]
    cases xs with
    | nil => rfl
    | cons y ys =>
      unfold insertSorted
      rw [if_pos (hx.1 y (List.mem_cons_self _ _))]

theorem storeInvariant {s : StoreState} (h : ReachableStore s) :
    ∀ pid, ConsecutiveVersions (versionsOf s pid) := by
  induction h with
  | empty =>
    intro pid
    rfl
  | create s pid pub vid owner title payload now hs ih =>
    intro pid'
    by_cases hp : pid' = pid
    · subst hp
      simp only [versionsOf, createProposal]
      rw [dictGet_dictSet_self]
      exact consecutive_single _ rfl
    · simp only [versionsOf, createProposal]
      rw [dictGet_dictSet_ne _ _ hp]
      exact ih pid'
  | newVersion s pid owner title payload vid now s' v hs hok ih =>
    intro pid'
    unfold createVersion at hok
    cases hgo : getOwnedProposal s pid owner with
    | none =>
      rw [hgo] at hok
      cases hok
    | some prop =>
      rw [hgo] at hok
      dsimp only at hok
      injection hok with hok
      injection hok with h1 h2
      subst h1
      by_cases hp : pid' = pid
      · subst hp
        simp only [versionsOf]
        rw [dictGet_dictSet_self]
        exact consecutive_append (ih pid')
          (nextVersionNumber_of_consecutive (ih pid'))
      · simp only [versionsOf]
        rw [dictGet_dictSet_ne _ _ hp]
        exact ih pid'
  | addDoc s pid owner kind version filename content_type bucket key size_bytes did now s' d hs hok ih =>
    intro pid'
    unfold addDocument at hok
    cases hgo : getOwnedProposal s pid owner with
    | none =>
      rw [hgo] at hok
      cases hok
    | some prop =>
      rw [hgo] at hok
      dsimp only at hok
      injection hok with hok
      injection hok with h1 h2
      subst h1
      exact ih pid'
  | delDoc s pid did owner hs ih =>
    intro pid'
    show ConsecutiveVersions (versionsOf (deleteDocument s pid did owner).1 pid')
    unfold deleteDocument
    cases hgo : getOwnedProposal s pid owner with
    | none =>
      exact ih pid'
    | some prop =>
      dsimp only
      by_cases hd : (dictGet (documentsOf s pid) did).isSome
      · rw [if_pos hd]
        exact ih pid'
      · rw [if_neg hd]
        exact ih pid'

/-! ## C5 -/

/-- C5: in the in-memory store, `create_proposal` stores an initial version
numbered 1; every successful `create_version` assigns exactly the current
highest version number plus 1; in every reachable store state the versions
of a proposal are the consecutive integers `1..n`; and `list_versions`
returns exactly the stored versions, sorted ascending by version. -/
theorem c5_version_monotonicity (s : StoreState) (hs : ReachableStore s) :
    (∀ pid pub vid owner title payload now,
      ((versionsOf (createProposal s pid pub vid owner title payload now).1 pid).map
        (·.version)) = [1]) ∧
    (∀ pid owner title payload vid now s' v,
      createVersion s pid owner title payload vid now = .ok (s', v) →
      v.version = highestVersion s pid + 1) ∧
    (∀ pid, (versionsOf s pid).map (·.version)
      = (List.range (versionsOf s pid).length).map (fun (i : ℕ) => (i : ℤ) + 1)) ∧
    (∀ pid owner, getOwnedProposal s pid owner ≠ none →
      listVersions s pid owner = versionsOf s pid) ∧
    (∀ pid owner,
      List.Pairwise (fun a b => a.version ≤ b.version) (listVersions s pid owner)) := by
  have hpw4 : ∀ pid owner, getOwnedProposal s pid owner ≠ none →
      listVersions s pid owner = versionsOf s pid := by
    intro pid owner hne
    unfold listVersions
    cases hgo : getOwnedProposal s pid owner with
    | none => exact absurd hgo hne
    | some prop =>
      dsimp only
      apply sortByKey_eq_of_pairwise
      exact (pairwise_le_of_consecutive (storeInvariant hs pid)).imp
        (fun hab => decide_eq_true hab)
  refine ⟨?_, ?_, ?_, hpw4, ?_⟩
  · intro pid pub vid owner title payload now
    simp only [versionsOf, createProposal]
    rw [dictGet_dictSet_self]
    rfl
  · intro pid owner title payload vid now s' v hok
    unfold createVersion at hok
    cases hgo : getOwnedProposal s pid owner with
    | none =>
      rw [hgo] at hok
      cases hok
    | some prop =>
      rw [hgo] at hok
      dsimp only at hok
      injection hok with hok
      injection hok with h1 h2
      rw [← h2]
      show nextVersionNumber (versionsOf s pid) = highestVersion s pid + 1
      rw [nextVersionNumber_of_consecutive (storeInvariant hs pid)]
      unfold highestVersion
      rw [highestVersion_of_consecutive (storeInvariant hs pid)]
  · intro pid
    exact storeInvariant hs pid
  · intro pid owner
    unfold listVersions
    cases hgo : getOwnedProposal s pid owner with
    | none => exact List.Pairwise.nil
    | some prop =>
      dsimp only
      rw [sortByKey_eq_of_pairwise _
        ((pairwise_le_of_consecutive (storeInvariant hs pid)).imp
          (fun hab => decide_eq_true hab))]
      exact pairwise_le_of_consecutive (storeInvariant hs pid)

/-- Witness for C5: a freshly created proposal in the empty store. -/
theorem c5_witness :
    ((versionsOf (createProposal sampleStore "p2" "pub2" "ver2" "owner" none "pl" "t1").1 "p2").map
      (·.version)) = [1] ∧
    listVersions sampleStore "p1" "owner" = versionsOf sampleStore "p1" := by
  have hc5 := c5_version_monotonicity sampleStore
    (ReachableStore.create {} "p1" "pub1" "ver1" "owner" none "payload" "t0"
      ReachableStore.empty)
  exact ⟨hc5.1 "p2" "pub2" "ver2" "owner" none "pl" "t1",
    hc5.2.2.2.1 "p1" "owner" (by decide)⟩

/-! ## C9 -/

/-- C9: `get_owned_proposal` returns the stored proposal exactly when the
supplied owner email matches the stored one; with a different email,
`create_version` and `add_document` raise `KeyError` while `list_versions`,
`get_version`, `list_documents` and `get_document` return empty or `None`;
an unknown proposal id also yields `None`. -/
theorem c9_ownership_keyed_by_email (s : StoreState) (pid owner : String) :
    (∀ p, dictGet s.proposals pid = some p →
      ((getOwnedProposal s pid owner = some p ↔ p.owner_email = owner) ∧
       (p.owner_email ≠ owner →
         (∀ title payload vid now,
           createVersion s pid owner title payload vid now = .error PyExc.keyError) ∧
         (∀ kind ver fn ct b k sz did now,
           addDocument s pid owner kind ver fn ct b k sz did now
             = .error PyExc.keyError) ∧
         listVersions s pid owner = [] ∧
         (∀ ver, getVersion s pid ver owner = none) ∧
         (∀ ver, listDocuments s pid owner ver = []) ∧
         (∀ did, getDocument s pid did owner = none)))) ∧
    (dictGet s.proposals pid = none → getOwnedProposal s pid owner = none) := by
  constructor
  · intro p hp
    have howned : ∀ q, getOwnedProposal s pid owner = some q → q = p ∧ p.owner_email = owner := by
      intro q hq
      unfold getOwnedProposal at hq
      rw [hp] at hq
      dsimp only at hq
      by_cases he : p.owner_email ≠ owner
      · rw [if_pos he] at hq
        cases hq
      · rw [if_neg he] at hq
        injection hq with hq
        exact ⟨hq.symm, not_not.mp he⟩
    have hnone : p.owner_email ≠ owner → getOwnedProposal s pid owner = none := by
      intro hne
      unfold getOwnedProposal
      rw [hp]
      dsimp only
      rw [if_pos hne]
    constructor
    · constructor
      · intro hq
        exact (howned p hq).2
      · intro he
        unfold getOwnedProposal
        rw [hp]
        dsimp only
        rw [if_neg (not_not_intro he)]
    · intro hne
      have hgo := hnone hne
      refine ⟨?_, ?_, ?_, ?_, ?_, ?_⟩
      · intro title payload vid now
        unfold createVersion
        rw [hgo]
      · intro kind ver fn ct b k sz did now
        unfold addDocument
        rw [hgo]
      · unfold listVersions
        rw [hgo]
      · intro ver
        unfold getVersion
        rw [hgo]
      · intro ver
        unfold listDocuments
        rw [hgo]
      · intro did
        unfold getDocument
        rw [hgo]
  · intro hp
    unfold getOwnedProposal
    rw [hp]

/-- Witness for C9: a caller with a different email against the sample
store's proposal. -/
theorem c9_witness :
    createVersion sampleStore "p1" "mallory" none "x" "v9" "t9"
        = .error PyExc.keyError ∧
    listVersions sampleStore "p1" "mallory" = [] ∧
    (∀ did, getDocument sampleStore "p1" did "mallory" = none) := by
  have h := (c9_ownership_keyed_by_email sampleStore "p1" "mallory").1
    { proposal_id := "p1", public_id := "pub1", owner_email := "owner",
      title := none, payload := "payload", created_at := "t0", updated_at := "t0" }
    (by decide)
  have h2 := h.2 (by decide)
  exact ⟨h2.1 none "x" "v9" "t9", h2.2.2.1, h2.2.2.2.2.2⟩

theorem runFetchPages_spec (fetchOk : ℕ → Bool) :
    ∀ (n i : ℕ) (st : SamSyncState) (c : ℕ),
      c ≤ (runFetchPages fetchOk n i st c).2.1 ∧
      (runFetchPages fetchOk n i st c).2.1 ≤ c + n ∧
      (runFetchPages fetchOk n i st c).1.requests_today
        = st.requests_today + (((runFetchPages fetchOk n i st c).2.1 - c : ℕ) : ℤ) ∧
      (runFetchPages fetchOk n i st c).1.requests_today_date
        = st.requests_today_date := by
  intro n
  induction n with
  | zero =>
    intro i st c
    simp only [runFetchPages]
    refine ⟨le_refl c, by omega, by omega, by trivial⟩
  | succ m ih =>
    intro i st c
    unfold runFetchPages
    by_cases hf : fetchOk i
    · rw [if_pos hf]
      obtain ⟨h1, h2, h3, h4⟩ :=
        ih (i + 1) { st with requests_today := st.requests_today + 1 } (c + 1)
      refine ⟨by omega, by omega, ?_, h4⟩
      rw [h3]
      dsimp only
      have hge : c + 1 ≤ (runFetchPages fetchOk m (i + 1)
          { st with requests_today := st.requests_today + 1 } (c + 1)).2.1 := h1
      omega
    · rw [if_neg hf]
      dsimp only
      refine ⟨by omega, by omega, by omega, rfl⟩

/-! ## C6 -/

/-- C6: the daily request-quota logic of `_sync_sam_contracts`: the counter
is reset to 0 when the stored date differs from today; with no remaining
quota the run fetches nothing and returns skipped/daily_limit_reached; an
active run issues at most `min(max(1, pages), remaining)` requests and
increments the counter exactly once per request; and a counter within the
daily maximum stays within it. -/
theorem c6_daily_quota_invariant (cfg : SamConfig) (st0 : SamSyncState)
    (today : String) (now : ℤ) (trigger : String) (fetchOk : ℕ → Bool) :
    (st0.requests_today_date ≠ some today →
      (resetDailyBudget st0 today).requests_today = 0 ∧
      (resetDailyBudget st0 today).requests_today_date = some today) ∧
    (cfg.api_key_present = true → 0 < cfg.max_requests_per_day →
      minIntervalSkipOf cfg (resetDailyBudget st0 today) now trigger = false →
      cfg.max_requests_per_day - (resetDailyBudget st0 today).requests_today ≤ 0 →
      (syncSamContracts cfg st0 today now trigger fetchOk).1.status = "skipped" ∧
      (syncSamContracts cfg st0 today now trigger fetchOk).1.reason
        = some "daily_limit_reached" ∧
      (syncSamContracts cfg st0 today now trigger fetchOk).1.request_count = 0 ∧
      (syncSamContracts cfg st0 today now trigger fetchOk).2.requests_today
        = (resetDailyBudget st0 today).requests_today) ∧
    (cfg.api_key_present = true → 0 < cfg.max_requests_per_day →
      minIntervalSkipOf cfg (resetDailyBudget st0 today) now trigger = false →
      0 < cfg.max_requests_per_day - (resetDailyBudget st0 today).requests_today →
      ((syncSamContracts cfg st0 today now trigger fetchOk).1.request_count : ℤ)
          ≤ min (max 1 cfg.pages)
            (cfg.max_requests_per_day - (resetDailyBudget st0 today).requests_today) ∧
      (syncSamContracts cfg st0 today now trigger fetchOk).2.requests_today
        = (resetDailyBudget st0 today).requests_today
          + ((syncSamContracts cfg st0 today now trigger fetchOk).1.request_count : ℤ)) ∧
    (st0.requests_today ≤ cfg.max_requests_per_day →
      (syncSamContracts cfg st0 today now trigger fetchOk).2.requests_today
        ≤ cfg.max_requests_per_day) := by
  have hreset : ∀ h : st0.requests_today_date ≠ some today,
      (resetDailyBudget st0 today).requests_today = 0 ∧
      (resetDailyBudget st0 today).requests_today_date = some today := by
    intro h
    unfold resetDailyBudget
    rw [if_pos h]
    exact ⟨rfl, rfl⟩
  refine ⟨hreset, ?_, ?_, ?_⟩
  · intro hkey hmax hmin hexh
    unfold syncSamContracts
    rw [if_neg (by simp [hkey]), if_neg (by omega), if_neg (by simp [hmin])]
    rw [if_pos (by omega)]
    exact ⟨rfl, rfl, rfl, rfl⟩
  · intro hkey hmax hmin hrem
    unfold syncSamContracts
    rw [if_neg (by simp [hkey]), if_neg (by omega), if_neg (by simp [hmin])]
    rw [if_neg (by omega)]
    set st := resetDailyBudget st0 today with hst
    set remaining := max 0 (cfg.max_requests_per_day - st.requests_today) with hremdef
    set pages := min (max 1 cfg.pages) remaining with hpages
    have hrem' : remaining = cfg.max_requests_per_day - st.requests_today := by omega
    have hpagespos : 0 < pages := by
      rw [hpages]
      refine lt_min ?_ ?_ <;> omega
    obtain ⟨h1, h2, h3, h4⟩ := runFetchPages_spec fetchOk pages.toNat 0 st 0
    by_cases hs : (runFetchPages fetchOk pages.toNat 0 st 0).2.2
    · rw [if_pos hs]
      dsimp only
      constructor
      · rw [← hrem']
        have : ((runFetchPages fetchOk pages.toNat 0 st 0).2.1 : ℤ) ≤ pages := by
          omega
        exact this
      · rw [h3]
        omega
    · rw [if_neg hs]
      dsimp only
      constructor
      · rw [← hrem']
        have : ((runFetchPages fetchOk pages.toNat 0 st 0).2.1 : ℤ) ≤ pages := by
          omega
        exact this
      · rw [h3]
        omega
  · intro hbound
    have hstb : (resetDailyBudget st0 today).requests_today ≤ cfg.max_requests_per_day
        ∨ cfg.max_requests_per_day ≤ 0 := by
      unfold resetDailyBudget
      by_cases hd : st0.requests_today_date ≠ some today
      · rw [if_pos hd]
        by_cases hm : 0 < cfg.max_requests_per_day
        · left
          dsimp only
          omega
        · right
          omega
      · rw [if_neg hd]
        left
        exact hbound
    unfold syncSamContracts
    by_cases hkey : cfg.api_key_present = false
    · rw [if_pos hkey]
      exact hbound
    · rw [if_neg hkey]
      by_cases hmax : cfg.max_requests_per_day ≤ 0
      · rw [if_pos hmax]
        exact hbound
      · rw [if_neg hmax]
        by_cases hmin : minIntervalSkipOf cfg (resetDailyBudget st0 today) now trigger
        · rw [if_pos hmin]
          rcases hstb with hstb | hstb
          · exact hstb
          · omega
        · rw [if_neg hmin]
          set st := resetDailyBudget st0 today with hst
          have hstb' : st.requests_today ≤ cfg.max_requests_per_day := by
            rcases hstb with hstb | hstb
            · exact hstb
            · omega
          set remaining := max 0 (cfg.max_requests_per_day - st.requests_today) with hremdef
          by_cases hrem : remaining ≤ 0
          · rw [if_pos hrem]
            exact hstb'
          · rw [if_neg hrem]
            set pages := min (max 1 cfg.pages) remaining with hpages
            obtain ⟨h1, h2, h3, h4⟩ := runFetchPages_spec fetchOk pages.toNat 0 st 0
            have hple : pages ≤ remaining := min_le_right _ _
            by_cases hs : (runFetchPages fetchOk pages.toNat 0 st 0).2.2
            · rw [if_pos hs]
              dsimp only
              omega
            · rw [if_neg hs]
              dsimp only
              omega

/-- Witness for C6: an exhausted quota skips; a fresh day resets. -/
theorem c6_witness :
    (({ requests_today := 8, requests_today_date := some "2026-10-11" }
        : SamSyncState).requests_today_date ≠ some "2026-10-12" →
      (resetDailyBudget { requests_today := 8, requests_today_date := some "2026-10-11" }
        "2026-10-12").requests_today = 0 ∧
      (resetDailyBudget { requests_today := 8, requests_today_date := some "2026-10-11" }
        "2026-10-12").requests_today_date = some "2026-10-12") ∧
    (syncSamContracts {} { requests_today := 8, requests_today_date := some "2026-10-12" }
      "2026-10-12" 0 "manual" (fun _ => true)).1.status = "skipped" ∧
    (syncSamContracts {} { requests_today := 8, requests_today_date := some "2026-10-12" }
      "2026-10-12" 0 "manual" (fun _ => true)).1.reason = some "daily_limit_reached" ∧
    (syncSamContracts {} { requests_today := 8, requests_today_date := some "2026-10-12" }
      "2026-10-12" 0 "manual" (fun _ => true)).1.request_count = 0 := by
  have ha := c6_daily_quota_invariant {}
    { requests_today := 8, requests_today_date := some "2026-10-11" }
    "2026-10-12" 0 "manual" (fun _ => true)
  have hb := c6_daily_quota_invariant {}
    { requests_today := 8, requests_today_date := some "2026-10-12" }
    "2026-10-12" 0 "manual" (fun _ => true)
  have h2 := hb.2.1 (by decide) (by decide) (by decide) (by decide)
  exact ⟨ha.1, h2.1, h2.2.1, h2.2.2.1⟩

/-! ## C7 -/

/-- Counterexample for C7 as stated: on a failed completion call with the
single requested section `"overview"`, the returned offline narrative is
empty, so not every requested section receives a string. -/
theorem c7_counterexample :
    narrativeCompletionStep SdkMode.v1 (Except.error "APIError") {} ["overview"]
        "professional"
      = .ok (.inr (offlineNarrative {} ["overview"] "professional")) ∧
    offlineNarrative {} ["overview"] "professional" = [] :=
  ⟨rfl, rfl⟩

/-- C7 (amended): whenever the chat-completion call raises, in either SDK
mode, `generate_narrative` returns the deterministic offline narrative
rather than propagating the exception, and every requested section that is
one of the four standard section names receives a string. -/
theorem c7_llm_failure_fallback (mode : SdkMode) (err : String)
    (ctx : NarrativeContext) (sections : List String) (tone : String) :
    narrativeCompletionStep mode (.error err) ctx sections tone
      = .ok (.inr (offlineNarrative ctx sections tone)) ∧
    (∀ e, narrativeCompletionStep mode (.error err) ctx sections tone
      ≠ .error e) ∧
    (∀ s ∈ sections, s ∈ defaultSections →
      ∃ text, (s, text) ∈ offlineNarrative ctx sections tone) := by
  have hstep : narrativeCompletionStep mode (.error err) ctx sections tone
      = .ok (.inr (offlineNarrative ctx sections tone)) := by
    cases mode <;> rfl
  refine ⟨hstep, ?_, ?_⟩
  · intro e he
    rw [hstep] at he
    cases he
  · intro s hs hsd
    have hne : sections.isEmpty = false := by
      cases sections with
      | nil => cases hs
      | cons a l => rfl
    have hsecs : (if sections.isEmpty then defaultSections else sections)
        = sections := by
      rw [hne]
      rfl
    unfold offlineNarrative
    rw [hsecs]
    have hcont : sections.contains s = true := List.elem_eq_true_of_mem hs
    simp only [defaultSections, List.mem_cons, List.not_mem_nil, or_false] at hsd
    rcases hsd with h | h | h | h
    · subst h
      exact ⟨offlineExecutiveSummary ctx, by simp [hs]⟩
    · subst h
      exact ⟨offlineAssumptions ctx, by simp [hs]⟩
    · subst h
      exact ⟨offlineRisks ctx, by simp [hs]⟩
    · subst h
      exact ⟨offlineRecommendations, by simp [hs]⟩

/-- Witness for C7 (amended): a failed v1 call requesting `risks`. -/
theorem c7_witness :
    narrativeCompletionStep SdkMode.v1 (Except.error "APIError") {} ["risks"]
        "professional"
      = .ok (.inr (offlineNarrative {} ["risks"] "professional")) ∧
    ∃ text, ("risks", text) ∈ offlineNarrative {} ["risks"] "professional" := by
  have h := c7_llm_failure_fallback SdkMode.v1 "APIError" {} ["risks"] "professional"
  exact ⟨h.1, h.2.2 "risks" (by decide) (by decide)⟩

/-! ## C8 -/

/-- Counterexample for C8 as stated: with the table names unset but the
process running inside AWS Lambda, `create_job` and `create_proposal`
raise `RuntimeError` instead of succeeding against the in-memory dicts. -/
theorem c8_counterexample :
    rjCreateJob
        { report_jobs_table_name := none, aws_lambda_function_name := some "handler" }
        (fun _ => .ok ()) [] "owner" "report" "payload" "job1" "t0"
      = .error PyExc.runtimeError ∧
    createProposalEnv
        { aws_lambda_function_name := some "handler" }
        (.error PyExc.runtimeError) {} "p1" "pub1" "ver1" "owner" none "payload" "t0"
      = .error PyExc.runtimeError ∧
    rjMode { report_jobs_table_name := none,
             aws_lambda_function_name := some "handler" } = "memory" :=
  ⟨rfl, rfl, rfl⟩

/-- C8 (amended): when the DynamoDB table-name environment variables are
unset and the process is not running in AWS Lambda, mode() is "memory" and
every store operation runs against the in-process dictionaries and
succeeds (report jobs: create/get/save; proposals: create_proposal,
create_version, add_document). -/
theorem c8_memory_fallback (renv : ReportJobEnv) (penv : ProposalEnv)
    (hrt : envTruthy renv.report_jobs_table_name = false)
    (hrl : envTruthy renv.aws_lambda_function_name = false)
    (hpt : envTruthy penv.proposals_table_name = false)
    (hpl : envTruthy penv.aws_lambda_function_name = false) :
    rjMode renv = "memory" ∧ psMode penv = "memory" ∧
    (∀ dynPut mem owner kind payload jid now,
      ∃ job, rjCreateJob renv dynPut mem owner kind payload jid now
        = .ok (dictSet mem jid job, job) ∧ job.status = "queued"
        ∧ job.job_id = jid) ∧
    (∀ dynGet mem jid, jid ≠ "" →
      rjGetJob renv dynGet mem jid = .ok (dictGet mem jid)) ∧
    (∀ dynPut mem item,
      rjSaveJob renv dynPut mem item = .ok (dictSet mem item.job_id item, item)) ∧
    (∀ dynRes s pid pub vid owner title payload now,
      createProposalEnv penv dynRes s pid pub vid owner title payload now
        = .ok (createProposal s pid pub vid owner title payload now)) ∧
    (∀ dynRes s pid owner title payload vid now,
      createVersionEnv penv dynRes s pid owner title payload vid now
        = createVersion s pid owner title payload vid now) ∧
    (∀ dynRes s pid owner kind ver fn ct b k sz did now,
      addDocumentEnv penv dynRes s pid owner kind ver fn ct b k sz did now
        = addDocument s pid owner kind ver fn ct b k sz did now) := by
  have hrc : rjTableConfigured renv = false := by
    unfold rjTableConfigured
    rw [hrt]
    simp
  have hri : rjIsConfigured renv = true := by
    unfold rjIsConfigured
    rw [hrc, hrl]
    rfl
  have hpc : psTablesConfigured penv = false := by
    unfold psTablesConfigured
    rw [hpt]
    simp
  have hpi : psIsConfigured penv = true := by
    unfold psIsConfigured
    rw [hpc, psInLambda, hpl]
    rfl
  have hpe : psEnsureConfigured penv = .ok () := by
    unfold psEnsureConfigured
    rw [if_pos hpi]
  refine ⟨?_, ?_, ?_, ?_, ?_, ?_, ?_, ?_⟩
  · unfold rjMode
    rw [hrc]
    rfl
  · unfold psMode
    rw [hpc]
    rfl
  · intro dynPut mem owner kind payload jid now
    refine ⟨{ job_id := jid, owner_email := owner, job_kind := kind,
              status := "queued", request_payload := payload,
              created_at := now, updated_at := now }, ?_, rfl, rfl⟩
    simp [rjCreateJob, rjSaveJob, hri, hrc]
  · intro dynGet mem jid hjid
    unfold rjGetJob
    rw [hri]
    have hj : (jid == "") = false := by
      simp [hjid]
    simp [hrc, hj]
  · intro dynPut mem item
    unfold rjSaveJob
    rw [hri]
    simp [hrc]
  · intro dynRes s pid pub vid owner title payload now
    unfold createProposalEnv
    rw [hpe]
    simp [hpc]
  · intro dynRes s pid owner title payload vid now
    unfold createVersionEnv
    rw [hpe]
    simp [hpc]
  · intro dynRes s pid owner kind ver fn ct b k sz did now
    unfold addDocumentEnv
    rw [hpe]
    simp [hpc]

/-- Witness for C8 (amended): the all-unset environment. -/
theorem c8_witness :
    rjMode {} = "memory" ∧ psMode {} = "memory" ∧
    (∃ job, rjCreateJob {} (fun _ => .ok ()) [] "owner" "report" "payload" "job1" "t0"
      = .ok (dictSet [] "job1" job, job) ∧ job.status = "queued"
      ∧ job.job_id = "job1") ∧
    createProposalEnv {} (.error PyExc.runtimeError) {} "p1" "pub" "v1" "o" none "pl" "t0"
      = .ok (createProposal {} "p1" "pub" "v1" "o" none "pl" "t0") := by
  have h := c8_memory_fallback {} {} (by decide) (by decide) (by decide) (by decide)
  exact ⟨h.1, h.2.1, h.2.2.1 (fun _ => .ok ()) [] "owner" "report" "payload" "job1" "t0",
    h.2.2.2.2.2.1 (.error PyExc.runtimeError) {} "p1" "pub" "v1" "o" none "pl" "t0"⟩

end EstTool
